import Mathlib

/-!
Shallow embedding of `src/visualizer/validators.py` from the
LLM-Data-Visualiser-Django-App repository.

The module under verification contains three operations over JSON-like
documents produced by a language model:

* `VisualizationValidator.validate_config` — checks a document against the
  static `CHART_CONFIG_SCHEMA` (jsonschema) plus a cross-field pass
  (dataset length must equal label count; data values must be numeric);
* `VisualizationValidator.fix_common_issues` — best-effort repair;
* `apply_visualization_rules` — theming (fills absent colors/options).

Modelling conventions:

* JSON / Python values are the inductive `JSON` below.  Python `int` and
  `float` are both mapped to `JSON.num : Rat`, since nothing in this module
  distinguishes them observationally (`isinstance(x, (int, float))` accepts
  both, the jsonschema type `number` accepts both, and Python `==` — the
  equality used when comparing whole documents — identifies `0` and `0.0`).
  Python `bool` is kept as a separate constructor because jsonschema's
  `number` type rejects booleans while `isinstance(x, (int, float))`
  accepts them.
* Python dicts are association lists (`JSON.obj`); lookup returns the
  first binding, assignment replaces the first binding in place or appends.
* A Python exception is `Except.error msg`; code that cannot raise returns
  plain values.  `fix_common_issues` and `apply_visualization_rules` are
  `JSON → Except String JSON`; `validate_config` wraps its raising body in
  the source's `try`/`except`, hence returns `Bool × String` directly.
* `float(x)` on strings is modelled for the plain decimal forms
  (optional sign, digits, optional fractional part, surrounding
  whitespace); exponent/inf/nan forms are out of scope for every claim.
-/

namespace Visualizer

/-- JSON / Python value as handled by `validators.py`. -/
inductive JSON where
  | null
  | bool (b : Bool)
  | num (q : Rat)
  | str (s : String)
  | arr (elems : List JSON)
  | obj (fields : List (String × JSON))
deriving Repr, Inhabited

mutual

/-- Decidable equality on `JSON` (the automatic derivation does not handle
the nested occurrence of `List`). -/
def JSON.decEq : (a b : JSON) → Decidable (a = b)
  | .null, .null => isTrue rfl
  | .null, .bool _ => isFalse (fun h => JSON.noConfusion h)
  | .null, .num _ => isFalse (fun h => JSON.noConfusion h)
  | .null, .str _ => isFalse (fun h => JSON.noConfusion h)
  | .null, .arr _ => isFalse (fun h => JSON.noConfusion h)
  | .null, .obj _ => isFalse (fun h => JSON.noConfusion h)
  | .bool _, .null => isFalse (fun h => JSON.noConfusion h)
  | .bool a, .bool b =>
      if h : a = b then isTrue (by rw [h])
      else isFalse (fun hh => h (by cases hh; rfl))
  | .bool _, .num _ => isFalse (fun h => JSON.noConfusion h)
  | .bool _, .str _ => isFalse (fun h => JSON.noConfusion h)
  | .bool _, .arr _ => isFalse (fun h => JSON.noConfusion h)
  | .bool _, .obj _ => isFalse (fun h => JSON.noConfusion h)
  | .num _, .null => isFalse (fun h => JSON.noConfusion h)
  | .num _, .bool _ => isFalse (fun h => JSON.noConfusion h)
  | .num a, .num b =>
      if h : a = b then isTrue (by rw [h])
      else isFalse (fun hh => h (by cases hh; rfl))
  | .num _, .str _ => isFalse (fun h => JSON.noConfusion h)
  | .num _, .arr _ => isFalse (fun h => JSON.noConfusion h)
  | .num _, .obj _ => isFalse (fun h => JSON.noConfusion h)
  | .str _, .null => isFalse (fun h => JSON.noConfusion h)
  | .str _, .bool _ => isFalse (fun h => JSON.noConfusion h)
  | .str _, .num _ => isFalse (fun h => JSON.noConfusion h)
  | .str a, .str b =>
      if h : a = b then isTrue (by rw [h])
      else isFalse (fun hh => h (by cases hh; rfl))
  | .str _, .arr _ => isFalse (fun h => JSON.noConfusion h)
  | .str _, .obj _ => isFalse (fun h => JSON.noConfusion h)
  | .arr _, .null => isFalse (fun h => JSON.noConfusion h)
  | .arr _, .bool _ => isFalse (fun h => JSON.noConfusion h)
  | .arr _, .num _ => isFalse (fun h => JSON.noConfusion h)
  | .arr _, .str _ => isFalse (fun h => JSON.noConfusion h)
  | .arr a, .arr b =>
      match JSON.decEqList a b with
      | isTrue h => isTrue (by rw [h])
      | isFalse h => isFalse (fun hh => h (by cases hh; rfl))
  | .arr _, .obj _ => isFalse (fun h => JSON.noConfusion h)
  | .obj _, .null => isFalse (fun h => JSON.noConfusion h)
  | .obj _, .bool _ => isFalse (fun h => JSON.noConfusion h)
  | .obj _, .num _ => isFalse (fun h => JSON.noConfusion h)
  | .obj _, .str _ => isFalse (fun h => JSON.noConfusion h)
  | .obj _, .arr _ => isFalse (fun h => JSON.noConfusion h)
  | .obj a, .obj b =>
      match JSON.decEqFields a b with
      | isTrue h => isTrue (by rw [h])
      | isFalse h => isFalse (fun hh => h (by cases hh; rfl))

/-- Decidable equality on lists of `JSON`. -/
def JSON.decEqList : (a b : List JSON) → Decidable (a = b)
  | [], [] => isTrue rfl
  | [], _ :: _ => isFalse (fun h => List.noConfusion h)
  | _ :: _, [] => isFalse (fun h => List.noConfusion h)
  | a :: as, b :: bs =>
      match JSON.decEq a b with
      | isTrue h1 =>
          match JSON.decEqList as bs with
          | isTrue h2 => isTrue (by rw [h1, h2])
          | isFalse h2 => isFalse (fun hh => h2 (by cases hh; rfl))
      | isFalse h1 => isFalse (fun hh => h1 (by cases hh; rfl))

/-- Decidable equality on association lists of `JSON`. -/
def JSON.decEqFields : (a b : List (String × JSON)) → Decidable (a = b)
  | [], [] => isTrue rfl
  | [], _ :: _ => isFalse (fun h => List.noConfusion h)
  | _ :: _, [] => isFalse (fun h => List.noConfusion h)
  | (k1, v1) :: as, (k2, v2) :: bs =>
      if hk : k1 = k2 then
          match JSON.decEq v1 v2 with
          | isTrue hv =>
              match JSON.decEqFields as bs with
              | isTrue h2 => isTrue (by rw [hk, hv, h2])
              | isFalse h2 => isFalse (fun hh => h2 (by cases hh; rfl))
          | isFalse hv => isFalse (fun hh => hv (by cases hh; rfl))
      else isFalse (fun hh => hk (by cases hh; rfl))

end

instance : DecidableEq JSON := JSON.decEq

namespace JSON

/-- First binding of key `k` in an association list (Python dict lookup). -/
def lookupField : List (String × JSON) → String → Option JSON
  | [], _ => none
  | (k', v) :: rest, k => if k' = k then some v else lookupField rest k

/-- Python dict assignment `d[k] = v`: replace the first binding of `k`,
or append a new binding when `k` is absent. -/
def setField : List (String × JSON) → String → JSON → List (String × JSON)
  | [], k, v => [(k, v)]
  | (k', v') :: rest, k, v =>
      if k' = k then (k, v) :: rest else (k', v') :: setField rest k v

/-- Key lookup on a `JSON` value known to be an object (`none` otherwise). -/
def lookupJ (j : JSON) (k : String) : Option JSON :=
  match j with
  | .obj fs => lookupField fs k
  | _ => none

end JSON

open JSON

/-- Python `iter(x)` as used by `for` loops: lists yield their elements,
strings yield their characters (as one-character strings), dicts yield
their keys; other values raise `TypeError`. -/
def pyIter : JSON → Except String (List JSON)
  | .arr l => .ok l
  | .str s => .ok (s.toList.map fun c => JSON.str (String.singleton c))
  | .obj fs => .ok (fs.map fun p => JSON.str p.1)
  | _ => .error "TypeError: object is not iterable"

/-- Python `len(x)`: defined for lists, strings and dicts; raises
`TypeError` otherwise. -/
def pyLen : JSON → Except String Nat
  | .arr l => .ok l.length
  | .str s => .ok s.length
  | .obj fs => .ok fs.length
  | _ => .error "TypeError: object has no len"

/-- Whether one string occurs inside another (Python `sub in s`). -/
def charsContain : List Char → List Char → Bool
  | _, [] => true
  | [], _ :: _ => false
  | c :: cs, needle => (needle.isPrefixOf (c :: cs)) || charsContain cs needle

/-- Python membership test `k in x` for a string literal `k`: key test for
dicts, element equality for lists, substring test for strings; raises
`TypeError` for other values. -/
def pyContainsStr (k : String) : JSON → Except String Bool
  | .obj fs => .ok (lookupField fs k).isSome
  | .arr l =>
      .ok (l.any fun e =>
        match e with
        | .str s => s = k
        | _ => false)
  | .str s => .ok (charsContain s.toList k.toList)
  | _ => .error "TypeError: argument is not a container"

/-- Python subscript `x[k]` for a string literal `k`: dict lookup
(`KeyError` when absent); `TypeError` for every non-dict value. -/
def pyGetItemStr (j : JSON) (k : String) : Except String JSON :=
  match j with
  | .obj fs =>
      match lookupField fs k with
      | some v => .ok v
      | none => .error ("KeyError: " ++ k)
  | _ => .error "TypeError: value is not subscriptable"

/-- Python `x.get(k, d)`: requires a dict (`AttributeError` otherwise). -/
def pyDictGet (j : JSON) (k : String) (d : JSON) : Except String JSON :=
  match j with
  | .obj fs =>
      match lookupField fs k with
      | some v => .ok v
      | none => .ok d
  | _ => .error "AttributeError: value has no attribute get"

/-- Python assignment `x[k] = v`: requires a dict (`TypeError`
otherwise). -/
def pySetItemStr (j : JSON) (k : String) (v : JSON) : Except String JSON :=
  match j with
  | .obj fs => .ok (.obj (setField fs k v))
  | _ => .error "TypeError: value does not support item assignment"

/-- Digits of a decimal string as a natural number (`none` when the
character list is empty or contains a non-digit). -/
def parseDigits : List Char → Option Nat
  | [] => none
  | cs =>
      if cs.all Char.isDigit then
        some (cs.foldl (fun n c => n * 10 + (c.toNat - 48)) 0)
      else none

/-- Model of Python `float(s)` on strings for plain decimal forms:
optional surrounding whitespace, optional sign, then `digits`,
`digits.digits`, `digits.` or `.digits`. -/
def parsePyFloat (s : String) : Option Rat :=
  let t := ((s.toList.dropWhile Char.isWhitespace).reverse.dropWhile
    Char.isWhitespace).reverse
  let withSign : List Char × Bool :=
    match t with
    | '-' :: rest => (rest, true)
    | '+' :: rest => (rest, false)
    | rest => (rest, false)
  let body := withSign.1
  let intPart := body.takeWhile fun c => c ≠ '.'
  let rest := body.dropWhile fun c => c ≠ '.'
  let mag : Option Rat :=
    match rest with
    | [] => (parseDigits intPart).map fun n => (n : Rat)
    | '.' :: frac =>
        if intPart = [] ∧ frac = [] then none
        else if intPart.all Char.isDigit ∧ frac.all Char.isDigit then
          some ((intPart.foldl (fun n c => n * 10 + (c.toNat - 48)) 0 : Nat) +
            (frac.foldl (fun n c => n * 10 + (c.toNat - 48)) 0 : Nat) /
              ((10 : Rat) ^ frac.length))
        else none
    | _ => none
  mag.map fun q => if withSign.2 then -q else q

/-- Python `float(x)` on non-`None` values: numbers and booleans convert,
strings parse (or raise `ValueError`), everything else raises
`TypeError`. -/
def pyFloat : JSON → Except String Rat
  | .num q => .ok q
  | .bool b => .ok (if b then 1 else 0)
  | .str s =>
      match parsePyFloat s with
      | some q => .ok q
      | none => .error "ValueError: could not convert string to float"
  | _ => .error "TypeError: argument must be a string or a number"

/-- Python `str.title()` restricted to the cased/uncased distinction of
ASCII letters: the first letter of each run of letters is uppercased and
the rest lowercased. -/
def titleCaseChars : List Char → Bool → List Char
  | [], _ => []
  | c :: cs, prevAlpha =>
      if c.isAlpha then
        (if prevAlpha then c.toLower else c.toUpper) :: titleCaseChars cs true
      else
        c :: titleCaseChars cs false

/-- Python `x.title()`: only strings have the method (`AttributeError`
otherwise). -/
def pyTitleMethod : JSON → Except String String
  | .str s => .ok (String.mk (titleCaseChars s.toList false))
  | _ => .error "AttributeError: object has no attribute title"

/-- Rendering of a value inside an f-string (`str(x)`); only strings are
ever interpolated on the reachable paths of `validate_config`, the other
cases approximate Python `str`. -/
def pyStr : JSON → String
  | .str s => s
  | .null => "None"
  | .bool b => if b then "True" else "False"
  | .num q => toString q
  | .arr _ => "[...]"
  | .obj _ => "{...}"

/-- jsonschema `"type": "number"` (accepts int and float, rejects bool). -/
def isNumber : JSON → Bool
  | .num _ => true
  | _ => false

/-- jsonschema `"type": "string"`. -/
def isString : JSON → Bool
  | .str _ => true
  | _ => false

/-- Python `isinstance(x, (int, float))` — NOTE: a Python `bool` is an
`int`, so this test accepts booleans, unlike the jsonschema `number`
type. -/
def isIntFloat : JSON → Bool
  | .num _ => true
  | .bool _ => true
  | _ => false

/-- The `enum` of legal chart types in `CHART_CONFIG_SCHEMA`. -/
def chartTypeEnum : List String :=
  ["bar", "line", "pie", "doughnut", "radar", "polarArea", "scatter", "bubble"]

/-- `CHART_CONFIG_SCHEMA`: the dataset item schema (`required: label, data`;
`label` a string, `data` an array of numbers, `backgroundColor` a string or
an array of strings, `borderColor` a string, `borderWidth` a number). -/
def datasetSchemaOk (j : JSON) : Bool :=
  match j with
  | .obj fs =>
      (lookupField fs "label").isSome && (lookupField fs "data").isSome &&
      (match lookupField fs "label" with
       | some v => isString v
       | none => true) &&
      (match lookupField fs "data" with
       | some (.arr l) => l.all isNumber
       | some _ => false
       | none => true) &&
      (match lookupField fs "backgroundColor" with
       | some (.str _) => true
       | some (.arr l) => l.all isString
       | some _ => false
       | none => true) &&
      (match lookupField fs "borderColor" with
       | some v => isString v
       | none => true) &&
      (match lookupField fs "borderWidth" with
       | some v => isNumber v
       | none => true)
  | _ => false

/-- `CHART_CONFIG_SCHEMA`: the `data` object of a chart (`required:
labels, datasets`; `labels` a non-empty array of strings/numbers,
`datasets` a non-empty array of datasets). -/
def chartDataSchemaOk (j : JSON) : Bool :=
  match j with
  | .obj fs =>
      (lookupField fs "labels").isSome && (lookupField fs "datasets").isSome &&
      (match lookupField fs "labels" with
       | some (.arr l) => decide (1 ≤ l.length) && l.all (fun x => isString x || isNumber x)
       | some _ => false
       | none => true) &&
      (match lookupField fs "datasets" with
       | some (.arr l) => decide (1 ≤ l.length) && l.all datasetSchemaOk
       | some _ => false
       | none => true)
  | _ => false

/-- `CHART_CONFIG_SCHEMA`: one chart item (`required: type, title, data`;
`type` in the enum, `title` a non-empty string, `options` an object when
present). -/
def chartSchemaOk (j : JSON) : Bool :=
  match j with
  | .obj fs =>
      (lookupField fs "type").isSome && (lookupField fs "title").isSome &&
      (lookupField fs "data").isSome &&
      (match lookupField fs "type" with
       | some (.str s) => chartTypeEnum.contains s
       | some _ => false
       | none => true) &&
      (match lookupField fs "title" with
       | some (.str s) => decide (1 ≤ s.length)
       | some _ => false
       | none => true) &&
      (match lookupField fs "data" with
       | some v => chartDataSchemaOk v
       | none => true) &&
      (match lookupField fs "options" with
       | some (.obj _) => true
       | some _ => false
       | none => true)
  | _ => false

/-- Structural validity of a document under `CHART_CONFIG_SCHEMA`: an
object with required `explanation` (non-empty string) and `charts`
(array of 1–10 chart items). -/
def schemaOk (j : JSON) : Bool :=
  match j with
  | .obj fs =>
      (lookupField fs "explanation").isSome && (lookupField fs "charts").isSome &&
      (match lookupField fs "explanation" with
       | some (.str s) => decide (1 ≤ s.length)
       | some _ => false
       | none => true) &&
      (match lookupField fs "charts" with
       | some (.arr l) =>
           decide (1 ≤ l.length) && decide (l.length ≤ 10) && l.all chartSchemaOk
       | some _ => false
       | none => true)
  | _ => false

/-- The `jsonschema.validate(instance=config, schema=CHART_CONFIG_SCHEMA)`
call: raises `ValidationError` exactly when the schema is violated.  The
message text of the library error is abstracted by a fixed description
(no claim depends on its wording, only on the `(False, message)` shape). -/
def schemaCheck (j : JSON) : Option String :=
  if schemaOk j then none
  else some "ValidationError: document does not conform to CHART_CONFIG_SCHEMA"

/-- The error message built by the length-mismatch branch of
`validate_config` (source line 98). -/
def mismatchMsg (dataLen labelsLen : Nat) (title : JSON) : String :=
  "Data length (" ++ toString dataLen ++ ") doesn't match labels length (" ++
    toString labelsLen ++ ") in chart '" ++ pyStr title ++ "'"

/-- The error message built by the non-numeric-data branch of
`validate_config` (source line 102). -/
def invalidDataMsg (title : JSON) : String :=
  "Invalid data values in chart '" ++ pyStr title ++ "' - must be numeric"

/-- Inner loop of `validate_config` over `chart['data']['datasets']`:
returns the first `(False, message)` payload, `none` when all datasets of
this chart pass, or a raised exception. -/
def validateDatasets (chart : JSON) (labelsLen : Nat) :
    List JSON → Except String (Option String)
  | [] => .ok none
  | ds :: rest =>
      match pyGetItemStr ds "data" with
      | .error e => .error e
      | .ok dataVal =>
          match pyLen dataVal with
          | .error e => .error e
          | .ok dataLen =>
              if dataLen ≠ labelsLen then
                match pyGetItemStr chart "title" with
                | .error e => .error e
                | .ok title => .ok (some (mismatchMsg dataLen labelsLen title))
              else
                match pyGetItemStr ds "data" with
                | .error e => .error e
                | .ok dataVal2 =>
                    match pyIter dataVal2 with
                    | .error e => .error e
                    | .ok elems =>
                        if elems.all isIntFloat then
                          validateDatasets chart labelsLen rest
                        else
                          match pyGetItemStr chart "title" with
                          | .error e => .error e
                          | .ok title => .ok (some (invalidDataMsg title))

/-- Outer loop of `validate_config` over `config.get('charts', [])`. -/
def validateCharts : List JSON → Except String (Option String)
  | [] => .ok none
  | chart :: rest =>
      match pyGetItemStr chart "data" with
      | .error e => .error e
      | .ok dataV =>
          match pyGetItemStr dataV "labels" with
          | .error e => .error e
          | .ok labelsV =>
              match pyLen labelsV with
              | .error e => .error e
              | .ok labelsLen =>
                  match pyGetItemStr chart "data" with
                  | .error e => .error e
                  | .ok dataV2 =>
                      match pyGetItemStr dataV2 "datasets" with
                      | .error e => .error e
                      | .ok datasetsV =>
                          match pyIter datasetsV with
                          | .error e => .error e
                          | .ok dss =>
                              match validateDatasets chart labelsLen dss with
                              | .error e => .error e
                              | .ok (some m) => .ok (some m)
                              | .ok none => validateCharts rest

/-- Body of `VisualizationValidator.validate_config` (the `try` block):
schema validation, then the additional length / numeric rules.  An
`Except.error` is an exception reaching the `except` handlers. -/
def validateConfigBody (config : JSON) : Except String (Bool × String) :=
  match schemaCheck config with
  | some msg => .error msg
  | none =>
      match pyDictGet config "charts" (.arr []) with
      | .error e => .error e
      | .ok chartsV =>
          match pyIter chartsV with
          | .error e => .error e
          | .ok charts =>
              match validateCharts charts with
              | .error e => .error e
              | .ok (some m) => .ok (false, m)
              | .ok none => .ok (true, "")

/-- `VisualizationValidator.validate_config`: both `except` handlers turn
the exception into `(False, str(e))`. -/
def validate_config (config : JSON) : Bool × String :=
  match validateConfigBody config with
  | .ok r => r
  | .error e => (false, e)

/-- Left-to-right effectful map over `Except` (a Python loop or list
comprehension: the first exception aborts the whole traversal). -/
def mapME (f : JSON → Except String JSON) : List JSON → Except String (List JSON)
  | [] => .ok []
  | x :: xs =>
      match f x with
      | .error e => .error e
      | .ok y =>
          match mapME f xs with
          | .error e => .error e
          | .ok ys => .ok (y :: ys)

/-- One element of the repair coercion
`float(x) if x is not None else 0`. -/
def coerceElem (x : JSON) : Except String JSON :=
  if x = JSON.null then .ok (.num 0)
  else (pyFloat x).map JSON.num

/-- `filterMapE f l` runs `f` over `l` keeping the `some` results and
propagating the first exception — the `for`/`continue`/`append` loops of
`fix_common_issues`. -/
def filterMapE (f : JSON → Except String (Option JSON)) :
    List JSON → Except String (List JSON)
  | [] => .ok []
  | a :: as =>
      match f a with
      | .error e => .error e
      | .ok (some b) =>
          match filterMapE f as with
          | .error e => .error e
          | .ok bs => .ok (b :: bs)
      | .ok none => filterMapE f as

/-- `if 'label' not in dataset: dataset['label'] = 'Dataset'` (source
lines 150–151). -/
def ensureLabel (fs : List (String × JSON)) : List (String × JSON) :=
  if (lookupField fs "label").isSome then fs
  else setField fs "label" (.str "Dataset")

/-- Truncate to the labels length or right-pad with `0` (source lines
161–168). -/
def padTruncate (ys : List JSON) (L : Nat) : List JSON :=
  if ys.length = L then ys
  else if L < ys.length then ys.take L
  else ys ++ List.replicate (L - ys.length) (JSON.num 0)

/-- Per-dataset body of `fix_common_issues` (source lines 145–170):
non-dicts are skipped, a missing `label` is defaulted, a list-valued
`data` is coerced to numbers (dropping the dataset when coercion raises)
and truncated / right-padded with `0` to the labels length; a dataset
without a list-valued `data` is not appended. -/
def fixDataset (data : JSON) (ds : JSON) : Except String (Option JSON) :=
  match ds with
  | .obj fs =>
      match lookupField (ensureLabel fs) "data" with
      | some (.arr xs) =>
          match mapME coerceElem xs with
          | .error _ => .ok none
          | .ok ys =>
              match pyDictGet data "labels" (.arr []) with
              | .error e => .error e
              | .ok labelsV =>
                  match pyLen labelsV with
                  | .error e => .error e
                  | .ok labelsLen =>
                      .ok (some (.obj (setField (ensureLabel fs) "data"
                        (.arr (padTruncate ys labelsLen)))))
      | _ => .ok none
  | _ => .ok none

/-- Default `options` block synthesized by `fix_common_issues` (source
lines 178–183). -/
def defaultFixOptions (title : JSON) : JSON :=
  .obj [("responsive", .bool true),
        ("plugins", .obj [("title", .obj [("display", .bool true), ("text", title)])])]

/-- Default the chart title from `type.title() + " Chart"` when absent
(source lines 133–134); raises when `type` is not a string. -/
def ensureTitle (fs : List (String × JSON)) : Except String (List (String × JSON)) :=
  if (lookupField fs "title").isSome then .ok fs
  else
    match pyGetItemStr (.obj fs) "type" with
    | .error e => .error e
    | .ok tv =>
        match pyTitleMethod tv with
        | .error e => .error e
        | .ok ts => .ok (setField fs "title" (.str (ts ++ " Chart")))

/-- Tail of the per-chart repair: write the repaired `data` back into the
chart and add the default `options` when absent (source lines 174–185). -/
def fixChartFinish (fs1 : List (String × JSON)) (data2 : JSON) :
    Except String (Option JSON) :=
  let fs2 := setField fs1 "data" data2
  if (lookupField fs2 "options").isSome then .ok (some (.obj fs2))
  else
    match pyGetItemStr (.obj fs2) "title" with
    | .error e => .error e
    | .ok titleV =>
        .ok (some (.obj (setField fs2 "options" (defaultFixOptions titleV))))

/-- Per-chart body of `fix_common_issues` (source lines 124–185):
non-dict charts and charts lacking `type`/`data` are skipped; a missing
`title` is synthesized from `type.title() + " Chart"` (raising
`AttributeError` when `type` is not a string); charts whose `data` lacks
`labels` or `datasets` are skipped; datasets are repaired; a chart with no
surviving dataset is dropped; default `options` are added when absent. -/
def fixChart (chart : JSON) : Except String (Option JSON) :=
  match chart with
  | .obj fs =>
      if (lookupField fs "type").isNone || (lookupField fs "data").isNone then
        .ok none
      else
        match ensureTitle fs with
        | .error e => .error e
        | .ok fs1 =>
            match pyDictGet (.obj fs1) "data" (.obj []) with
            | .error e => .error e
            | .ok data =>
                match pyContainsStr "labels" data with
                | .error e => .error e
                | .ok false => .ok none
                | .ok true =>
                    match pyContainsStr "datasets" data with
                    | .error e => .error e
                    | .ok false => .ok none
                    | .ok true =>
                        match pyDictGet data "datasets" (.arr []) with
                        | .error e => .error e
                        | .ok datasetsV =>
                            match pyIter datasetsV with
                            | .error e => .error e
                            | .ok dss =>
                                match filterMapE (fixDataset data) dss with
                                | .error e => .error e
                                | .ok fixed =>
                                    if fixed.isEmpty then .ok none
                                    else
                                      match pySetItemStr data "datasets" (.arr fixed) with
                                      | .error e => .error e
                                      | .ok data2 =>
                                          fixChartFinish fs1 data2
  | _ => .ok none

/-- `VisualizationValidator.fix_common_issues` (source lines 113–188).
A non-dict input is returned unchanged; otherwise the `charts` value is
replaced by the surviving repaired list.  `Except.error` models an
uncaught exception. -/
def fix_common_issues (config : JSON) : Except String JSON :=
  match config with
  | .obj fs =>
      match pyIter ((lookupField fs "charts").getD (.arr [])) with
      | .error e => .error e
      | .ok charts =>
          match filterMapE fixChart charts with
          | .error e => .error e
          | .ok fixed => .ok (.obj (setField fs "charts" (.arr fixed)))
  | c => .ok c

/-- The fixed 6-color palette of `apply_visualization_rules` (source
lines 207–214). -/
def pieColors : List String :=
  ["rgba(212, 175, 55, 0.8)", "rgba(255, 215, 0, 0.8)",
   "rgba(212, 175, 55, 0.6)", "rgba(255, 215, 0, 0.6)",
   "rgba(212, 175, 55, 0.4)", "rgba(255, 215, 0, 0.4)"]

/-- Python list repetition `l * n`. -/
def listMul (l : List JSON) : Nat → List JSON
  | 0 => []
  | n + 1 => l ++ listMul l n

/-- `(colors * ((num_items // len(colors)) + 1))[:num_items]` (source
line 216). -/
def cycledColors (n : Nat) : List JSON :=
  (listMul (pieColors.map JSON.str) (n / pieColors.length + 1)).take n

/-- `chart_type in ['pie', 'doughnut']` (Python list membership by
equality). -/
def isPieType (t : JSON) : Bool :=
  match t with
  | .str s => s = "pie" || s = "doughnut"
  | _ => false

/-- Per-dataset body of `apply_visualization_rules` (source lines
202–224): fill `backgroundColor` (palette cycle for pie/doughnut, single
translucent gold otherwise), `borderColor` and `borderWidth` when
absent. -/
def themeBorder (ds1 : JSON) : Except String JSON :=
  match pyContainsStr "borderColor" ds1 with
  | .error e => .error e
  | .ok true =>
      match pyContainsStr "borderWidth" ds1 with
      | .error e => .error e
      | .ok true => .ok ds1
      | .ok false => pySetItemStr ds1 "borderWidth" (.num 2)
  | .ok false =>
      match pySetItemStr ds1 "borderColor" (.str "#d4af37") with
      | .error e => .error e
      | .ok ds2 =>
          match pyContainsStr "borderWidth" ds2 with
          | .error e => .error e
          | .ok true => .ok ds2
          | .ok false => pySetItemStr ds2 "borderWidth" (.num 2)

/-- Head of the per-dataset theming: fill `backgroundColor` when absent
(the `borderColor`/`borderWidth` fills are `themeBorder` above). -/
def themeDataset (chartType : JSON) (ds : JSON) : Except String JSON :=
  match pyContainsStr "backgroundColor" ds with
  | .error e => .error e
  | .ok true => themeBorder ds
  | .ok false =>
      if isPieType chartType then
        match pyDictGet ds "data" (.arr []) with
        | .error e => .error e
        | .ok dataV =>
            match pyLen dataV with
            | .error e => .error e
            | .ok numItems =>
                match pySetItemStr ds "backgroundColor"
                    (.arr (cycledColors numItems)) with
                | .error e => .error e
                | .ok ds1 => themeBorder ds1
      else
        match pySetItemStr ds "backgroundColor"
            (.str "rgba(212, 175, 55, 0.6)") with
        | .error e => .error e
        | .ok ds1 => themeBorder ds1

/-- Default `options.plugins.title` block of `apply_visualization_rules`
(source lines 233–238). -/
def defaultTitleBlock (title : JSON) : JSON :=
  .obj [("display", .bool true), ("text", title), ("color", .str "#d4af37"),
        ("font", .obj [("size", .num 16), ("weight", .str "300")])]

/-- Default `options.plugins.legend` block of `apply_visualization_rules`
(source lines 241–244). -/
def defaultLegendBlock : JSON :=
  .obj [("display", .bool true),
        ("labels", .obj [("color", .str "#ffffff"),
                         ("font", .obj [("size", .num 12)])])]

/-- Write-back of the themed datasets (in the source the list's dict
elements are mutated in place, so the update is visible through
`chart['data']['datasets']` exactly when that value is a Python list). -/
def writeBackDatasets (chart : JSON) (dss2 : List JSON) : JSON :=
  match chart with
  | .obj cfs =>
      match lookupField cfs "data" with
      | some (.obj dfs) =>
          match lookupField dfs "datasets" with
          | some (.arr _) =>
              .obj (setField cfs "data" (.obj (setField dfs "datasets" (.arr dss2))))
          | _ => chart
      | _ => chart
  | _ => chart

/-- Trailing part of the options theming: ensure
`options.plugins.legend` exists (source lines 240–244). -/
def themeOptionsLegend (options2 : JSON) : Except String JSON :=
  match pyGetItemStr options2 "plugins" with
  | .error e => .error e
  | .ok pluginsV2 =>
      match pyContainsStr "legend" pluginsV2 with
      | .error e => .error e
      | .ok true => .ok options2
      | .ok false =>
          match pySetItemStr pluginsV2 "legend" defaultLegendBlock with
          | .error e => .error e
          | .ok pl2 => pySetItemStr options2 "plugins" pl2

/-- Middle part of the options theming: ensure `options.plugins.title`
exists (source lines 232–238), then the legend. -/
def themeOptionsTitle (chart1 options1 pluginsV : JSON) : Except String JSON :=
  match pyContainsStr "title" pluginsV with
  | .error e => .error e
  | .ok true => themeOptionsLegend options1
  | .ok false =>
      match pyDictGet chart1 "title" (.str "Chart") with
      | .error e => .error e
      | .ok titleV =>
          match pySetItemStr pluginsV "title" (defaultTitleBlock titleV) with
          | .error e => .error e
          | .ok pl1 =>
              match pySetItemStr options1 "plugins" pl1 with
              | .error e => .error e
              | .ok options2 => themeOptionsLegend options2

/-- Options part of the per-chart theming (source lines 227–246): ensure
`options.plugins` exists, then the title and legend blocks. -/
def themeOptions (chart1 : JSON) : Except String JSON :=
  match pyDictGet chart1 "options" (.obj []) with
  | .error e => .error e
  | .ok options =>
      match pyContainsStr "plugins" options with
      | .error e => .error e
      | .ok true =>
          match pyGetItemStr options "plugins" with
          | .error e => .error e
          | .ok pluginsV => themeOptionsTitle chart1 options pluginsV
      | .ok false =>
          match pySetItemStr options "plugins" (.obj []) with
          | .error e => .error e
          | .ok options1 =>
              match pyGetItemStr options1 "plugins" with
              | .error e => .error e
              | .ok pluginsV => themeOptionsTitle chart1 options1 pluginsV

/-- Per-chart body of `apply_visualization_rules` (source lines
198–246): theme every dataset, write the themed list back, then ensure
the options blocks exist and store them on the chart. -/
def themeChart (chart : JSON) : Except String JSON :=
  match pyDictGet chart "type" (.str "bar") with
  | .error e => .error e
  | .ok chartType =>
      match pyDictGet chart "data" (.obj []) with
      | .error e => .error e
      | .ok dataV =>
          match pyDictGet dataV "datasets" (.arr []) with
          | .error e => .error e
          | .ok datasetsV =>
              match pyIter datasetsV with
              | .error e => .error e
              | .ok dsIter =>
                  match mapME (themeDataset chartType) dsIter with
                  | .error e => .error e
                  | .ok dss2 =>
                      match themeOptions (writeBackDatasets chart dss2) with
                      | .error e => .error e
                      | .ok options3 =>
                          pySetItemStr (writeBackDatasets chart dss2) "options" options3

/-- `apply_visualization_rules` (source lines 191–248).  Non-dict inputs
and dicts without a `charts` key are returned unchanged; otherwise every
chart is themed in document order. -/
def apply_visualization_rules (config : JSON) : Except String JSON :=
  match config with
  | .obj fs =>
      if (lookupField fs "charts").isNone then .ok (.obj fs)
      else
        match pyIter ((lookupField fs "charts").getD (.arr [])) with
        | .error e => .error e
        | .ok charts =>
            match mapME themeChart charts with
            | .error e => .error e
            | .ok charts2 =>
                match (lookupField fs "charts").getD (.arr []) with
                | .arr _ => .ok (.obj (setField fs "charts" (.arr charts2)))
                | _ => .ok (.obj fs)
  | c => .ok c

instance : DecidableEq (Except String JSON) := fun a b =>
  match a, b with
  | .ok x, .ok y =>
      if h : x = y then isTrue (by rw [h])
      else isFalse (fun hh => h (by cases hh; rfl))
  | .error x, .error y =>
      if h : x = y then isTrue (by rw [h])
      else isFalse (fun hh => h (by cases hh; rfl))
  | .ok _, .error _ => isFalse (fun h => Except.noConfusion h)
  | .error _, .ok _ => isFalse (fun h => Except.noConfusion h)

/-- Path accessor for statements: the first chart of a document. -/
def firstChart (doc : JSON) : Option JSON :=
  match lookupJ doc "charts" with
  | some (.arr (c :: _)) => some c
  | _ => none

/-- Path accessor for statements: the `data` list of the first dataset of
the first chart. -/
def firstDatasetData (doc : JSON) : Option (List JSON) :=
  match firstChart doc with
  | some c =>
      match lookupJ c "data" with
      | some d =>
          match lookupJ d "datasets" with
          | some (.arr (ds :: _)) =>
              match lookupJ ds "data" with
              | some (.arr l) => some l
              | _ => none
          | _ => none
      | _ => none
  | none => none

/-- Scenario B document: labels `["Q1","Q2","Q3"]`, dataset data
`[10, 20]`. -/
def docB : JSON :=
  .obj [("explanation", .str "e"),
        ("charts", .arr [
          .obj [("type", .str "bar"), ("title", .str "Sales"),
                ("data", .obj [
                  ("labels", .arr [.str "Q1", .str "Q2", .str "Q3"]),
                  ("datasets", .arr [
                    .obj [("label", .str "A"),
                          ("data", .arr [.num 10, .num 20])]])])]])]

/-- Scenario B document after repair: data right-padded with `0`,
default `options` added. -/
def docBFixed : JSON :=
  .obj [("explanation", .str "e"),
        ("charts", .arr [
          .obj [("type", .str "bar"), ("title", .str "Sales"),
                ("data", .obj [
                  ("labels", .arr [.str "Q1", .str "Q2", .str "Q3"]),
                  ("datasets", .arr [
                    .obj [("label", .str "A"),
                          ("data", .arr [.num 10, .num 20, .num 0])]])]),
                ("options", defaultFixOptions (.str "Sales"))]])]

/-- Scenario C document: three labels, one dataset with data
`["a", 5, null]`. -/
def docC : JSON :=
  .obj [("explanation", .str "e"),
        ("charts", .arr [
          .obj [("type", .str "bar"), ("title", .str "T"),
                ("data", .obj [
                  ("labels", .arr [.str "x", .str "y", .str "z"]),
                  ("datasets", .arr [
                    .obj [("label", .str "A"),
                          ("data", .arr [.str "a", .num 5, .null])]])])]])]

/-- A chart mapping whose `type` is present but not a string and whose
`title` is absent — the malformed shape named by claim C3. -/
def docTypeNotStr : JSON :=
  .obj [("charts", .arr [
    .obj [("type", .num 1),
          ("data", .obj [("labels", .arr [.num 1]),
                         ("datasets", .arr [])])]])]

/-- A valid document that is already fully themed (every color/width and
options block present), used as a fixed-point witness. -/
def docThemed : JSON :=
  .obj [("explanation", .str "e"),
        ("charts", .arr [
          .obj [("type", .str "bar"), ("title", .str "Sales"),
                ("data", .obj [
                  ("labels", .arr [.str "Q1"]),
                  ("datasets", .arr [
                    .obj [("label", .str "A"), ("data", .arr [.num 1]),
                          ("backgroundColor", .str "#101010"),
                          ("borderColor", .str "#d4af37"),
                          ("borderWidth", .num 1)]])]),
                ("options", .obj [("plugins", .obj [
                    ("title", .obj [("display", .bool true)]),
                    ("legend", .obj [("display", .bool true)])])])]])]

/-- Path accessor for statements: the value at `options.plugins.<k>` of a
chart (`none` when any step is absent or not a mapping). -/
def pluginsPathOf (c : JSON) (k : String) : Option JSON :=
  match lookupJ c "options" with
  | some ov =>
      match lookupJ ov "plugins" with
      | some pv => lookupJ pv k
      | none => none
  | none => none

/-- Path accessor for statements: the dataset list of a chart (empty when
any step is absent or of the wrong shape). -/
def datasetsOf (c : JSON) : List JSON :=
  match lookupJ c "data" with
  | some dv =>
      match lookupJ dv "datasets" with
      | some (.arr l) => l
      | _ => []
  | none => []

/-- Whether an `Except` computation returned normally. -/
def exceptOk {α : Type} : Except String α → Bool
  | .ok _ => true
  | .error _ => false

/-- The shapes Python `len` and `iter` accept in this module: lists,
strings and dicts. -/
def sizedOk (v : JSON) : Bool :=
  match v with
  | .arr _ => true
  | .str _ => true
  | .obj _ => true
  | _ => false

/-- Sufficient well-typedness condition under which the per-chart body of
`fix_common_issues` cannot raise: the chart is skipped early (non-dict, or
`type`/`data` missing), or a missing `title` can be synthesized (`type` is
a string), the `data` value is a dict, and when that dict has both
`labels` and `datasets` the labels are sized and the datasets iterable. -/
def chartFixSafe (chart : JSON) : Bool :=
  match chart with
  | .obj fs =>
      if (lookupField fs "type").isNone || (lookupField fs "data").isNone then true
      else
        ((lookupField fs "title").isSome ||
          (match lookupField fs "type" with
           | some (.str _) => true
           | _ => false)) &&
        (match lookupField fs "data" with
         | some (.obj dfs) =>
             (match lookupField dfs "labels", lookupField dfs "datasets" with
              | some lv, some dsv => sizedOk lv && sizedOk dsv
              | _, _ => true)
         | _ => false)
  | _ => true

/-- Sufficient condition under which `fix_common_issues` cannot raise:
non-dict inputs, and dicts whose `charts` value is absent or iterable with
every yielded chart entry well-typed in the sense of `chartFixSafe`. -/
def fixSafe (config : JSON) : Bool :=
  match config with
  | .obj fs =>
      match lookupField fs "charts" with
      | none => true
      | some (.arr cs) => cs.all chartFixSafe
      | some (.str _) => true
      | some (.obj _) => true
      | some _ => false
  | _ => true

theorem lookupField_setField_self (fs : List (String × JSON)) (k : String) (v : JSON) :
    lookupField (setField fs k v) k = some v := by
  induction fs with
  | nil => simp [setField, lookupField]
  | cons hd tl ih =>
      obtain ⟨k', v'⟩ := hd
      by_cases h : k' = k
      · simp [setField, lookupField, h]
      · simp [setField, lookupField, h, ih]

theorem lookupField_setField_ne (fs : List (String × JSON)) (k k' : String) (v : JSON)
    (h : k' ≠ k) : lookupField (setField fs k v) k' = lookupField fs k' := by
  induction fs with
  | nil => simp [setField, lookupField, Ne.symm h]
  | cons hd tl ih =>
      obtain ⟨k0, v0⟩ := hd
      by_cases h0 : k0 = k
      · subst h0
        simp [setField, lookupField, Ne.symm h]
      · simp [setField, lookupField, h0, ih]

theorem setField_eq_self (fs : List (String × JSON)) (k : String) (v : JSON)
    (h : lookupField fs k = some v) : setField fs k v = fs := by
  induction fs with
  | nil => simp [lookupField] at h
  | cons hd tl ih =>
      obtain ⟨k', v'⟩ := hd
      by_cases h0 : k' = k
      · subst h0
        simp [lookupField] at h
        simp [setField, h]
      · simp [lookupField, h0] at h
        simp [setField, h0, ih h]

/-- C2: the 3-vs-2 mismatch is rejected with a message naming the chart
title and both lengths; repair right-pads the data to `[10, 20, 0]`; the
repaired document validates. -/
theorem claim2_mismatch_repair_scenario :
    validate_config docB =
      (false, "Data length (2) doesn't match labels length (3) in chart 'Sales'") ∧
    fix_common_issues docB = .ok docBFixed ∧
    firstDatasetData docBFixed = some [.num 10, .num 20, .num 0] ∧
    validate_config docBFixed = (true, "") := by
  refine ⟨by decide, by decide, by decide, by decide⟩

/-- C6: a dataset whose data contains a non-coercible string is dropped
by repair, taking its only chart with it; the resulting empty chart list
fails re-validation. -/
theorem claim6_noncoercible_dataset_dropped :
    (∃ R, fix_common_issues docC = .ok R ∧
      lookupJ R "charts" = some (.arr []) ∧
      (validate_config R).1 = false) := by
  refine ⟨.obj [("explanation", .str "e"), ("charts", .arr [])], by decide, by decide, by decide⟩

/-- C3 counterexample: `fix_common_issues` raises `AttributeError` on a
chart whose `type` is present but not a string and whose `title` is
absent (`chart['type'].title()` on a non-string), contrary to the
claim that it returns normally for every input. -/
theorem claim3_repair_raises_cex :
    fix_common_issues docTypeNotStr =
      .error "AttributeError: object has no attribute title" := by
  decide

/-- C10: every exception raised inside the body of `validate_config`
(schema violations included) is caught by the `except` handlers and
converted into a `(False, message)` return value. -/
theorem claim10_validate_catches_exceptions (D : JSON) (e : String)
    (h : validateConfigBody D = .error e) :
    validate_config D = (false, e) := by
  unfold validate_config
  rw [h]

theorem claim10_validate_catches_exceptions_witness :
    validate_config .null =
      (false, "ValidationError: document does not conform to CHART_CONFIG_SCHEMA") :=
  claim10_validate_catches_exceptions .null _ rfl

theorem listMul_length (l : List JSON) (k : Nat) :
    (listMul l k).length = k * l.length := by
  induction k with
  | zero => simp [listMul]
  | succ n ih => simp [listMul, ih, Nat.succ_mul, Nat.add_comm]

theorem listMul_getElem? (l : List JSON) (k i : Nat)
    (h : i < k * l.length) : (listMul l k)[i]? = l[i % l.length]? := by
  induction k generalizing i with
  | zero => simp at h
  | succ n ih =>
      rw [listMul]
      by_cases hi : i < l.length
      · rw [List.getElem?_append, if_pos hi, Nat.mod_eq_of_lt hi]
      · push_neg at hi
        have h2 : i - l.length < n * l.length := by
          have hs : (n + 1) * l.length = n * l.length + l.length := by ring
          omega
        rw [List.getElem?_append, if_neg (Nat.not_lt.mpr hi), ih _ h2,
          Nat.mod_eq_sub_mod hi]

/-- The cycled palette list has exactly `n` entries. -/
theorem cycledColors_length (n : Nat) : (cycledColors n).length = n := by
  rw [cycledColors, List.length_take, listMul_length]
  have h6 : (pieColors.map JSON.str).length = 6 := by decide
  have h6b : pieColors.length = 6 := by decide
  rw [h6, h6b]
  omega


theorem themeBorder_obj_ok (fs1 : List (String × JSON)) :
    ∃ fs2, themeBorder (.obj fs1) = .ok (.obj fs2) ∧
      (lookupField fs2 "borderColor").isSome ∧
      (lookupField fs2 "borderWidth").isSome ∧
      (∀ v, lookupField fs1 "borderColor" = some v →
        lookupField fs2 "borderColor" = some v) ∧
      (∀ v, lookupField fs1 "borderWidth" = some v →
        lookupField fs2 "borderWidth" = some v) ∧
      (∀ k, k ≠ "borderColor" → k ≠ "borderWidth" →
        lookupField fs2 k = lookupField fs1 k) := by
  by_cases hbc : (lookupField fs1 "borderColor").isSome
  · by_cases hbw : (lookupField fs1 "borderWidth").isSome
    · refine ⟨fs1, ?_, hbc, hbw, fun v hv => hv, fun v hv => hv,
        fun k _ _ => rfl⟩
      simp [themeBorder, pyContainsStr, hbc, hbw]
    · refine ⟨setField fs1 "borderWidth" (.num 2), ?_, ?_, ?_, ?_, ?_, ?_⟩
      · simp [themeBorder, pyContainsStr, hbc, hbw, pySetItemStr]
      · rw [lookupField_setField_ne _ _ _ _ (by decide)]
        exact hbc
      · rw [lookupField_setField_self]
        rfl
      · intro v hv
        rw [lookupField_setField_ne _ _ _ _ (by decide)]
        exact hv
      · intro v hv
        exact absurd (Option.isSome_iff_exists.mpr ⟨v, hv⟩) hbw
      · intro k _ hk2
        exact lookupField_setField_ne _ _ _ _ hk2
  · by_cases hbw : (lookupField (setField fs1 "borderColor" (.str "#d4af37"))
        "borderWidth").isSome
    · refine ⟨setField fs1 "borderColor" (.str "#d4af37"), ?_, ?_, hbw, ?_, ?_, ?_⟩
      · simp [themeBorder, pyContainsStr, hbc, hbw, pySetItemStr]
      · rw [lookupField_setField_self]
        rfl
      · intro v hv
        exact absurd (Option.isSome_iff_exists.mpr ⟨v, hv⟩) hbc
      · intro v hv
        rwa [lookupField_setField_ne _ _ _ _ (by decide)]
      · intro k hk1 _
        exact lookupField_setField_ne _ _ _ _ hk1
    · refine ⟨setField (setField fs1 "borderColor" (.str "#d4af37"))
        "borderWidth" (.num 2), ?_, ?_, ?_, ?_, ?_, ?_⟩
      · simp [themeBorder, pyContainsStr, hbc, hbw, pySetItemStr]
      · rw [lookupField_setField_ne _ _ _ _ (by decide),
          lookupField_setField_self]
        rfl
      · rw [lookupField_setField_self]
        rfl
      · intro v hv
        exact absurd (Option.isSome_iff_exists.mpr ⟨v, hv⟩) hbc
      · intro v hv
        have hv2 : lookupField (setField fs1 "borderColor" (.str "#d4af37"))
            "borderWidth" = some v := by
          rwa [lookupField_setField_ne _ _ _ _ (by decide)]
        exact absurd (Option.isSome_iff_exists.mpr ⟨v, hv2⟩) hbw
      · intro k hk1 hk2
        rw [lookupField_setField_ne _ _ _ _ hk2,
          lookupField_setField_ne _ _ _ _ hk1]


theorem cycledColors_getElem? (n i : Nat) (hi : i < n) :
    (cycledColors n)[i]? = (pieColors.map JSON.str)[i % 6]? := by
  have h6 : (pieColors.map JSON.str).length = 6 := by decide
  have h6b : pieColors.length = 6 := by decide
  rw [cycledColors, h6b]
  have hik : i < (n / 6 + 1) * (pieColors.map JSON.str).length := by
    rw [h6]
    omega
  rw [List.getElem?_take, if_pos hi, listMul_getElem? _ _ _ hik, h6]

/-- C7: for every pie or doughnut chart, a dataset lacking a
`backgroundColor` key is assigned a `backgroundColor` list whose length
equals the dataset's data length and whose `i`-th element is the fixed
6-color palette entry at index `i mod 6` (the palette repeated
cyclically from its first entry and truncated). -/
theorem claim7_pie_palette_assignment (t : JSON) (fsx : List (String × JSON))
    (xs : List JSON)
    (ht : t = .str "pie" ∨ t = .str "doughnut")
    (hbg : lookupField fsx "backgroundColor" = none)
    (hdata : lookupField fsx "data" = some (.arr xs)) :
    ∃ ds', themeDataset t (.obj fsx) = .ok ds' ∧
      lookupJ ds' "backgroundColor" = some (.arr (cycledColors xs.length)) ∧
      (cycledColors xs.length).length = xs.length ∧
      ∀ i, i < xs.length →
        (cycledColors xs.length)[i]? = (pieColors.map JSON.str)[i % 6]? := by
  have hpie : isPieType t = true := by
    rcases ht with h | h <;> simp [h, isPieType]
  have hstage : themeDataset t (.obj fsx) =
      themeBorder (.obj (setField fsx "backgroundColor"
        (.arr (cycledColors xs.length)))) := by
    simp [themeDataset, pyContainsStr, hbg, hpie, pyDictGet, hdata, pyLen,
      pySetItemStr]
  obtain ⟨fs2, hok, _, _, _, _, hother⟩ :=
    themeBorder_obj_ok (setField fsx "backgroundColor"
      (.arr (cycledColors xs.length)))
  refine ⟨.obj fs2, by rw [hstage, hok], ?_, cycledColors_length xs.length,
    fun i hi => cycledColors_getElem? xs.length i hi⟩
  show lookupField fs2 "backgroundColor" = _
  rw [hother _ (by decide) (by decide), lookupField_setField_self]

theorem isNumber_dest {x : JSON} (h : isNumber x = true) : ∃ q, x = .num q := by
  cases x <;> simp [isNumber] at h ⊢

theorem datasetSchemaOk_dest {ds : JSON} (h : datasetSchemaOk ds = true) :
    ∃ dsfs, ds = .obj dsfs ∧ ∃ dl, lookupField dsfs "data" = some (.arr dl) ∧
      ∀ x ∈ dl, isNumber x = true := by
  cases ds with
  | obj dsfs =>
      refine ⟨dsfs, rfl, ?_⟩
      simp only [datasetSchemaOk, Bool.and_eq_true] at h
      obtain ⟨⟨⟨⟨⟨⟨_, hdata⟩, _⟩, hdl⟩, _⟩, _⟩, _⟩ := h
      cases hd : lookupField dsfs "data" with
      | none =>
          rw [hd] at hdata
          simp at hdata
      | some v =>
          rw [hd] at hdl
          cases v <;> simp at hdl
          case arr dl => exact ⟨dl, rfl, by simpa [List.all_eq_true] using hdl⟩
  | null => simp [datasetSchemaOk] at h
  | bool b => simp [datasetSchemaOk] at h
  | num q => simp [datasetSchemaOk] at h
  | str s => simp [datasetSchemaOk] at h
  | arr l => simp [datasetSchemaOk] at h

theorem chartDataSchemaOk_dest {dv : JSON} (h : chartDataSchemaOk dv = true) :
    ∃ dfs, dv = .obj dfs ∧
      (∃ ls, lookupField dfs "labels" = some (.arr ls)) ∧
      ∃ dss, lookupField dfs "datasets" = some (.arr dss) ∧
        ∀ ds ∈ dss, datasetSchemaOk ds = true := by
  cases dv with
  | obj dfs =>
      refine ⟨dfs, rfl, ?_, ?_⟩
      all_goals simp only [chartDataSchemaOk, Bool.and_eq_true] at h
      · obtain ⟨⟨⟨hl, _⟩, hlv⟩, _⟩ := h
        cases hlk : lookupField dfs "labels" with
        | none =>
            rw [hlk] at hl
            simp at hl
        | some v =>
            rw [hlk] at hlv
            cases v <;> simp at hlv
            case arr ls => exact ⟨ls, rfl⟩
      · obtain ⟨⟨⟨_, hd⟩, _⟩, hdv⟩ := h
        cases hdk : lookupField dfs "datasets" with
        | none =>
            rw [hdk] at hd
            simp at hd
        | some v =>
            rw [hdk] at hdv
            cases v <;> simp at hdv
            case arr dss =>
                exact ⟨dss, rfl, by simpa [List.all_eq_true] using hdv.2⟩
  | null => simp [chartDataSchemaOk] at h
  | bool b => simp [chartDataSchemaOk] at h
  | num q => simp [chartDataSchemaOk] at h
  | str s => simp [chartDataSchemaOk] at h
  | arr l => simp [chartDataSchemaOk] at h

theorem chartSchemaOk_dest {c : JSON} (h : chartSchemaOk c = true) :
    ∃ cfs, c = .obj cfs ∧
      (∃ tv, lookupField cfs "title" = some tv) ∧
      ∃ dv, lookupField cfs "data" = some dv ∧ chartDataSchemaOk dv = true := by
  cases c with
  | obj cfs =>
      refine ⟨cfs, rfl, ?_, ?_⟩
      all_goals simp only [chartSchemaOk, Bool.and_eq_true] at h
      · obtain ⟨⟨⟨⟨⟨⟨_, ht⟩, _⟩, _⟩, _⟩, _⟩, _⟩ := h
        exact Option.isSome_iff_exists.mp ht
      · obtain ⟨⟨⟨⟨⟨⟨_, _⟩, hd⟩, _⟩, _⟩, hdv⟩, _⟩ := h
        cases hdk : lookupField cfs "data" with
        | none =>
            rw [hdk] at hd
            simp at hd
        | some v =>
            rw [hdk] at hdv
            exact ⟨v, rfl, hdv⟩
  | null => simp [chartSchemaOk] at h
  | bool b => simp [chartSchemaOk] at h
  | num q => simp [chartSchemaOk] at h
  | str s => simp [chartSchemaOk] at h
  | arr l => simp [chartSchemaOk] at h

theorem schemaOk_dest {D : JSON} (h : schemaOk D = true) :
    ∃ fs, D = .obj fs ∧ ∃ cs, lookupField fs "charts" = some (.arr cs) ∧
      1 ≤ cs.length ∧ cs.length ≤ 10 ∧ ∀ c ∈ cs, chartSchemaOk c = true := by
  cases D with
  | obj fs =>
      refine ⟨fs, rfl, ?_⟩
      simp only [schemaOk, Bool.and_eq_true] at h
      obtain ⟨⟨⟨_, hc⟩, _⟩, hcv⟩ := h
      cases hck : lookupField fs "charts" with
      | none =>
          rw [hck] at hc
          simp at hc
      | some v =>
          rw [hck] at hcv
          cases v <;> simp at hcv
          case arr cs => exact ⟨cs, rfl, hcv.1.1, hcv.1.2, hcv.2⟩
  | null => simp [schemaOk] at h
  | bool b => simp [schemaOk] at h
  | num q => simp [schemaOk] at h
  | str s => simp [schemaOk] at h
  | arr l => simp [schemaOk] at h

theorem validateConfigBody_ok_dest {D : JSON} {r : Bool × String}
    (h : validateConfigBody D = .ok r) (hr : r.1 = true) :
    schemaOk D = true ∧ ∃ chartsV charts,
      pyDictGet D "charts" (.arr []) = .ok chartsV ∧
      pyIter chartsV = .ok charts ∧ validateCharts charts = .ok none ∧
      r = (true, "") := by
  rw [validateConfigBody] at h
  cases hs : schemaCheck D with
  | some m =>
      simp only [hs] at h
      exact absurd h (by simp)
  | none =>
      simp only [hs] at h
      have hok : schemaOk D = true := by
        by_cases hq : schemaOk D
        · exact hq
        · simp [schemaCheck, hq] at hs
      cases hg : pyDictGet D "charts" (.arr []) with
      | error e =>
          simp only [hg] at h
          exact absurd h (by simp)
      | ok chartsV =>
          simp only [hg] at h
          cases hi : pyIter chartsV with
          | error e =>
              simp only [hi] at h
              exact absurd h (by simp)
          | ok charts =>
              simp only [hi] at h
              cases hv : validateCharts charts with
              | error e =>
                  simp only [hv] at h
                  exact absurd h (by simp)
              | ok o =>
                  simp only [hv] at h
                  cases o with
                  | some m =>
                      injection h with h2
                      rw [← h2] at hr
                      simp at hr
                  | none =>
                      injection h with h2
                      exact ⟨hok, chartsV, charts, rfl, hi, hv, h2.symm⟩

theorem validateDatasets_ok_none {chart : JSON} {L : Nat} {dss : List JSON}
    (h : validateDatasets chart L dss = .ok none) :
    ∀ ds ∈ dss, ∀ dsfs dl, ds = .obj dsfs →
      lookupField dsfs "data" = some (.arr dl) → dl.length = L := by
  induction dss with
  | nil =>
      intro ds hmem
      simp at hmem
  | cons d rest ih =>
      intro ds hmem dsfs dl hds hdl
      rw [validateDatasets] at h
      cases hg : pyGetItemStr d "data" with
      | error e =>
          simp only [hg] at h
          exact absurd h (by simp)
      | ok dataVal =>
          simp only [hg] at h
          cases hl : pyLen dataVal with
          | error e =>
              simp only [hl] at h
              exact absurd h (by simp)
          | ok dataLen =>
              simp only [hl] at h
              by_cases hne : dataLen ≠ L
              · rw [if_pos hne] at h
                cases ht : pyGetItemStr chart "title" with
                | error e =>
                    simp only [ht] at h
                    exact absurd h (by simp)
                | ok tv =>
                    simp only [ht] at h
                    exact absurd h (by simp)
              · rw [if_neg hne] at h
                push_neg at hne
                cases hit : pyIter dataVal with
                | error e =>
                    simp only [hit] at h
                    exact absurd h (by simp)
                | ok elems =>
                    simp only [hit] at h
                    by_cases hall : elems.all isIntFloat
                    · rw [if_pos hall] at h
                      rcases List.mem_cons.mp hmem with hisc | hrest
                      · subst hisc
                        subst hds
                        simp only [pyGetItemStr, hdl] at hg
                        injection hg with hg3
                        subst hg3
                        simp only [pyLen] at hl
                        injection hl with hl2
                        omega
                      · exact ih h ds hrest dsfs dl hds hdl
                    · rw [if_neg hall] at h
                      cases ht : pyGetItemStr chart "title" with
                      | error e =>
                          simp only [ht] at h
                          exact absurd h (by simp)
                      | ok tv =>
                          simp only [ht] at h
                          exact absurd h (by simp)

theorem validateCharts_ok_none {cs : List JSON}
    (h : validateCharts cs = .ok none) :
    ∀ c ∈ cs, ∀ cfs dv dfs ls dss, c = .obj cfs →
      lookupField cfs "data" = some dv → dv = .obj dfs →
      lookupField dfs "labels" = some (.arr ls) →
      lookupField dfs "datasets" = some (.arr dss) →
      validateDatasets c ls.length dss = .ok none := by
  induction cs with
  | nil =>
      intro c hmem
      simp at hmem
  | cons c0 rest ih =>
      intro c hmem cfs dv dfs ls dss hc hdv hdfs hls hdss
      rw [validateCharts] at h
      cases hg : pyGetItemStr c0 "data" with
      | error e =>
          simp only [hg] at h
          exact absurd h (by simp)
      | ok dataV =>
          simp only [hg] at h
          cases hlb : pyGetItemStr dataV "labels" with
          | error e =>
              simp only [hlb] at h
              exact absurd h (by simp)
          | ok labelsV =>
              simp only [hlb] at h
              cases hln : pyLen labelsV with
              | error e =>
                  simp only [hln] at h
                  exact absurd h (by simp)
              | ok labelsLen =>
                  simp only [hln] at h
                  cases hds2 : pyGetItemStr dataV "datasets" with
                  | error e =>
                      simp only [hds2] at h
                      exact absurd h (by simp)
                  | ok datasetsV =>
                      simp only [hds2] at h
                      cases hit : pyIter datasetsV with
                      | error e =>
                          simp only [hit] at h
                          exact absurd h (by simp)
                      | ok dssx =>
                          simp only [hit] at h
                          cases hvd : validateDatasets c0 labelsLen dssx with
                          | error e =>
                              simp only [hvd] at h
                              exact absurd h (by simp)
                          | ok o =>
                              simp only [hvd] at h
                              cases o with
                              | some m => exact absurd h (by simp)
                              | none =>
                                  rcases List.mem_cons.mp hmem with hisc | hrest
                                  · subst hisc
                                    subst hc
                                    subst hdfs
                                    simp only [pyGetItemStr, hdv] at hg
                                    injection hg with hg3
                                    subst hg3
                                    simp only [pyGetItemStr, hls] at hlb
                                    injection hlb with hlb2
                                    subst hlb2
                                    simp only [pyLen] at hln
                                    injection hln with hln2
                                    simp only [pyGetItemStr, hdss] at hds2
                                    injection hds2 with hds3
                                    subst hds3
                                    simp only [pyIter] at hit
                                    injection hit with hit2
                                    subst hit2
                                    rw [hln2]
                                    exact hvd
                                  · exact ih h c hrest cfs dv dfs ls dss hc
                                      hdv hdfs hls hdss

/-- C1: whenever `validate_config` answers `(True, "")`, the document's
charts list has between 1 and 10 elements and every dataset's data length
equals its chart's labels length. -/
theorem claim1_valid_implies_invariants (D : JSON)
    (h : validate_config D = (true, "")) :
    ∃ cs, lookupJ D "charts" = some (.arr cs) ∧ 1 ≤ cs.length ∧ cs.length ≤ 10 ∧
      ∀ c ∈ cs, ∃ dv ls dss,
        lookupJ c "data" = some dv ∧
        lookupJ dv "labels" = some (.arr ls) ∧
        lookupJ dv "datasets" = some (.arr dss) ∧
        ∀ ds ∈ dss, ∃ dl, lookupJ ds "data" = some (.arr dl) ∧
          dl.length = ls.length := by
  have hbody : validateConfigBody D = .ok (true, "") := by
    unfold validate_config at h
    cases hb : validateConfigBody D with
    | error e =>
        simp only [hb] at h
        exact absurd h (by simp)
    | ok r =>
        simp only [hb] at h
        rw [h]
  obtain ⟨hok, chartsV, charts, hg, hi, hvc, _⟩ :=
    validateConfigBody_ok_dest hbody rfl
  obtain ⟨fs, hD, cs, hck, h1, h10, hall⟩ := schemaOk_dest hok
  subst hD
  simp only [pyDictGet, hck] at hg
  injection hg with hg2
  rw [← hg2] at hi
  simp only [pyIter] at hi
  injection hi with hi2
  rw [← hi2] at hvc
  refine ⟨cs, by simpa [lookupJ] using hck, h1, h10, ?_⟩
  intro c hmem
  obtain ⟨cfs, hc, _, dv, hdv, hcd⟩ := chartSchemaOk_dest (hall c hmem)
  obtain ⟨dfs, hdfs, ⟨ls, hls⟩, dss, hdss, hdsall⟩ := chartDataSchemaOk_dest hcd
  refine ⟨dv, ls, dss, by rw [hc]; simpa [lookupJ] using hdv,
    by rw [hdfs]; simpa [lookupJ] using hls,
    by rw [hdfs]; simpa [lookupJ] using hdss, ?_⟩
  intro ds hdsm
  obtain ⟨dsfs, hds, dl, hdl, _⟩ := datasetSchemaOk_dest (hdsall ds hdsm)
  have hvd := validateCharts_ok_none hvc c hmem cfs dv dfs ls dss hc hdv hdfs
    hls hdss
  have hlen := validateDatasets_ok_none hvd ds hdsm dsfs dl hds hdl
  exact ⟨dl, by rw [hds]; simpa [lookupJ] using hdl, hlen⟩

theorem claim1_valid_implies_invariants_witness :
    ∃ cs, lookupJ docBFixed "charts" = some (.arr cs) ∧
      1 ≤ cs.length ∧ cs.length ≤ 10 ∧
      ∀ c ∈ cs, ∃ dv ls dss,
        lookupJ c "data" = some dv ∧
        lookupJ dv "labels" = some (.arr ls) ∧
        lookupJ dv "datasets" = some (.arr dss) ∧
        ∀ ds ∈ dss, ∃ dl, lookupJ ds "data" = some (.arr dl) ∧
          dl.length = ls.length :=
  claim1_valid_implies_invariants docBFixed (by decide)

/-- C8: `validate_config` answers true only when every element of every
dataset's data list is a number (a text, null or boolean element is
rejected: Python booleans pass `isinstance(x, (int, float))` but are
rejected by the schema's `number` type). -/
theorem claim8_accepts_only_numeric (D : JSON)
    (h : (validate_config D).1 = true) :
    ∃ cs, lookupJ D "charts" = some (.arr cs) ∧
      ∀ c ∈ cs, ∃ dv dss,
        lookupJ c "data" = some dv ∧
        lookupJ dv "datasets" = some (.arr dss) ∧
        ∀ ds ∈ dss, ∃ dl, lookupJ ds "data" = some (.arr dl) ∧
          ∀ x ∈ dl, ∃ q, x = JSON.num q := by
  have hbody : ∃ r, validateConfigBody D = .ok r ∧ r.1 = true := by
    unfold validate_config at h
    cases hb : validateConfigBody D with
    | error e =>
        simp only [hb] at h
        exact absurd h (by simp)
    | ok r =>
        simp only [hb] at h
        exact ⟨r, rfl, h⟩
  obtain ⟨r, hb, hr⟩ := hbody
  obtain ⟨hok, -, -, -, -, -, -⟩ := validateConfigBody_ok_dest hb hr
  obtain ⟨fs, hD, cs, hck, -, -, hall⟩ := schemaOk_dest hok
  subst hD
  refine ⟨cs, by simpa [lookupJ] using hck, ?_⟩
  intro c hmem
  obtain ⟨cfs, hc, -, dv, hdv, hcd⟩ := chartSchemaOk_dest (hall c hmem)
  obtain ⟨dfs, hdfs, -, dss, hdss, hdsall⟩ := chartDataSchemaOk_dest hcd
  refine ⟨dv, dss, by rw [hc]; simpa [lookupJ] using hdv,
    by rw [hdfs]; simpa [lookupJ] using hdss, ?_⟩
  intro ds hdsm
  obtain ⟨dsfs, hds, dl, hdl, hnum⟩ := datasetSchemaOk_dest (hdsall ds hdsm)
  exact ⟨dl, by rw [hds]; simpa [lookupJ] using hdl,
    fun x hx => isNumber_dest (hnum x hx)⟩

theorem claim8_accepts_only_numeric_witness :
    ∃ cs, lookupJ docBFixed "charts" = some (.arr cs) ∧
      ∀ c ∈ cs, ∃ dv dss,
        lookupJ c "data" = some dv ∧
        lookupJ dv "datasets" = some (.arr dss) ∧
        ∀ ds ∈ dss, ∃ dl, lookupJ ds "data" = some (.arr dl) ∧
          ∀ x ∈ dl, ∃ q, x = JSON.num q :=
  claim8_accepts_only_numeric docBFixed (by decide)

theorem claim7_pie_palette_assignment_witness :
    ∃ ds', themeDataset (.str "pie")
        (.obj [("label", .str "A"),
               ("data", .arr [.num 1, .num 2, .num 3, .num 4])]) = .ok ds' ∧
      lookupJ ds' "backgroundColor" =
        some (.arr (cycledColors [JSON.num 1, .num 2, .num 3, .num 4].length)) ∧
      (cycledColors [JSON.num 1, .num 2, .num 3, .num 4].length).length =
        [JSON.num 1, .num 2, .num 3, .num 4].length ∧
      ∀ i, i < [JSON.num 1, .num 2, .num 3, .num 4].length →
        (cycledColors [JSON.num 1, .num 2, .num 3, .num 4].length)[i]? =
          (pieColors.map JSON.str)[i % 6]? :=
  claim7_pie_palette_assignment (.str "pie") _ _ (Or.inl rfl) (by decide)
    (by decide)

theorem ensureLabel_label_isSome (fs : List (String × JSON)) :
    (lookupField (ensureLabel fs) "label").isSome := by
  rw [ensureLabel]
  by_cases h : (lookupField fs "label").isSome
  · rw [if_pos h]
    exact h
  · rw [if_neg h, lookupField_setField_self]
    rfl

theorem padTruncate_length (ys : List JSON) (L : Nat) :
    (padTruncate ys L).length = L := by
  rw [padTruncate]
  by_cases h1 : ys.length = L
  · rw [if_pos h1]
    exact h1
  · rw [if_neg h1]
    by_cases h2 : L < ys.length
    · rw [if_pos h2, List.length_take]
      omega
    · rw [if_neg h2, List.length_append, List.length_replicate]
      omega

theorem padTruncate_num {ys : List JSON} {L : Nat}
    (h : ∀ y ∈ ys, ∃ q, y = JSON.num q) :
    ∀ y ∈ padTruncate ys L, ∃ q, y = JSON.num q := by
  intro y hy
  rw [padTruncate] at hy
  by_cases h1 : ys.length = L
  · rw [if_pos h1] at hy
    exact h y hy
  · rw [if_neg h1] at hy
    by_cases h2 : L < ys.length
    · rw [if_pos h2] at hy
      exact h y (List.take_subset _ _ hy)
    · rw [if_neg h2] at hy
      rcases List.mem_append.mp hy with hy1 | hy2
      · exact h y hy1
      · exact ⟨0, List.eq_of_mem_replicate hy2⟩

theorem padTruncate_eq_self {ys : List JSON} {L : Nat} (h : ys.length = L) :
    padTruncate ys L = ys := by
  rw [padTruncate, if_pos h]

theorem coerceElem_num (q : Rat) : coerceElem (.num q) = .ok (.num q) := by
  rw [coerceElem, if_neg (by simp)]
  rfl

theorem coerceElem_ok_num {x y : JSON} (h : coerceElem x = .ok y) :
    ∃ q, y = .num q := by
  rw [coerceElem] at h
  by_cases hx : x = JSON.null
  · rw [if_pos hx] at h
    injection h with h2
    exact ⟨0, h2.symm⟩
  · rw [if_neg hx] at h
    cases hp : pyFloat x with
    | error e =>
        rw [hp] at h
        simp [Except.map] at h
    | ok q =>
        rw [hp] at h
        simp only [Except.map] at h
        injection h with h2
        exact ⟨q, h2.symm⟩

theorem mapME_num_id {xs : List JSON} (h : ∀ x ∈ xs, ∃ q, x = JSON.num q) :
    mapME coerceElem xs = .ok xs := by
  induction xs with
  | nil => rfl
  | cons x rest ih =>
      obtain ⟨q, hq⟩ := h x (by simp)
      subst hq
      rw [mapME, coerceElem_num, ih (fun y hy => h y (by simp [hy]))]

theorem mapME_ok_num {xs ys : List JSON} (h : mapME coerceElem xs = .ok ys) :
    ∀ y ∈ ys, ∃ q, y = JSON.num q := by
  induction xs generalizing ys with
  | nil =>
      rw [mapME] at h
      injection h with h2
      subst h2
      intro y hy
      simp at hy
  | cons x rest ih =>
      rw [mapME] at h
      cases hc : coerceElem x with
      | error e =>
          simp only [hc] at h
          exact absurd h (by simp)
      | ok y0 =>
          simp only [hc] at h
          cases hm : mapME coerceElem rest with
          | error e =>
              simp only [hm] at h
              exact absurd h (by simp)
          | ok ys0 =>
              simp only [hm] at h
              injection h with h2
              subst h2
              intro y hy
              rcases List.mem_cons.mp hy with h3 | h3
              · subst h3
                exact coerceElem_ok_num hc
              · exact ih hm y h3

theorem filterMapE_mem {f : JSON → Except String (Option JSON)}
    {l r : List JSON} (h : filterMapE f l = .ok r) :
    ∀ b ∈ r, ∃ a ∈ l, f a = .ok (some b) := by
  induction l generalizing r with
  | nil =>
      rw [filterMapE] at h
      injection h with h2
      subst h2
      intro b hb
      simp at hb
  | cons a rest ih =>
      rw [filterMapE] at h
      cases hf : f a with
      | error e =>
          simp only [hf] at h
          exact absurd h (by simp)
      | ok o =>
          simp only [hf] at h
          cases o with
          | some b0 =>
              cases hm : filterMapE f rest with
              | error e =>
                  simp only [hm] at h
                  exact absurd h (by simp)
              | ok bs =>
                  simp only [hm] at h
                  injection h with h2
                  subst h2
                  intro b hb
                  rcases List.mem_cons.mp hb with h3 | h3
                  · subst h3
                    exact ⟨a, by simp, hf⟩
                  · obtain ⟨a2, ha2, hfa2⟩ := ih hm b h3
                    exact ⟨a2, by simp [ha2], hfa2⟩
          | none =>
              intro b hb
              obtain ⟨a2, ha2, hfa2⟩ := ih h b hb
              exact ⟨a2, by simp [ha2], hfa2⟩

theorem filterMapE_self {f : JSON → Except String (Option JSON)}
    {l : List JSON} (h : ∀ a ∈ l, f a = .ok (some a)) :
    filterMapE f l = .ok l := by
  induction l with
  | nil => rfl
  | cons a rest ih =>
      rw [filterMapE, h a (by simp), ih (fun b hb => h b (by simp [hb]))]

theorem ensureTitle_ok {fs fs1 : List (String × JSON)}
    (h : ensureTitle fs = .ok fs1) :
    (lookupField fs1 "title").isSome ∧
    ∀ k, k ≠ "title" → lookupField fs1 k = lookupField fs k := by
  rw [ensureTitle] at h
  by_cases ht : (lookupField fs "title").isSome
  · rw [if_pos ht] at h
    injection h with h2
    subst h2
    exact ⟨ht, fun k _ => rfl⟩
  · rw [if_neg ht] at h
    cases hg : pyGetItemStr (.obj fs) "type" with
    | error e =>
        simp only [hg] at h
        exact absurd h (by simp)
    | ok tv =>
        simp only [hg] at h
        cases htt : pyTitleMethod tv with
        | error e =>
            simp only [htt] at h
            exact absurd h (by simp)
        | ok ts =>
            simp only [htt] at h
            injection h with h2
            subst h2
            refine ⟨by rw [lookupField_setField_self]; rfl, fun k hk => ?_⟩
            exact lookupField_setField_ne _ _ _ _ hk

theorem fixDataset_fixed {data data' ds ds' : JSON}
    (h : fixDataset data ds = .ok (some ds'))
    (hsame : pyDictGet data' "labels" (.arr []) =
      pyDictGet data "labels" (.arr [])) :
    fixDataset data' ds' = .ok (some ds') := by
  cases ds with
  | obj fs =>
      rw [fixDataset] at h
      cases hd : lookupField (ensureLabel fs) "data" with
      | none =>
          simp only [hd] at h
          exact absurd h (by simp)
      | some v =>
          cases v with
          | arr xs =>
              simp only [hd] at h
              cases hm : mapME coerceElem xs with
              | error e =>
                  simp only [hm] at h
                  exact absurd h (by simp)
              | ok ys =>
                  simp only [hm] at h
                  cases hg : pyDictGet data "labels" (.arr []) with
                  | error e =>
                      simp only [hg] at h
                      exact absurd h (by simp)
                  | ok labelsV =>
                      simp only [hg] at h
                      cases hl : pyLen labelsV with
                      | error e =>
                          simp only [hl] at h
                          exact absurd h (by simp)
                      | ok L =>
                          simp only [hl] at h
                          injection h with h2
                          injection h2 with h3
                          subst h3
                          have hlab : lookupField (setField (ensureLabel fs)
                              "data" (.arr (padTruncate ys L))) "label" =
                              lookupField (ensureLabel fs) "label" :=
                            lookupField_setField_ne _ _ _ _ (by decide)
                          have hEL : ensureLabel (setField (ensureLabel fs)
                              "data" (.arr (padTruncate ys L))) =
                              setField (ensureLabel fs) "data"
                                (.arr (padTruncate ys L)) := by
                            rw [ensureLabel, if_pos]
                            rw [hlab]
                            exact ensureLabel_label_isSome fs
                          have hnum : ∀ y ∈ padTruncate ys L, ∃ q, y = JSON.num q :=
                            padTruncate_num (mapME_ok_num hm)
                          simp only [fixDataset, hEL, lookupField_setField_self,
                            mapME_num_id hnum, hsame, hg, hl,
                            padTruncate_eq_self (padTruncate_length ys L)]
                          rw [setField_eq_self _ _ _ (lookupField_setField_self _ _ _)]
          | null =>
              simp only [hd] at h
              exact absurd h (by simp)
          | bool b =>
              simp only [hd] at h
              exact absurd h (by simp)
          | num q =>
              simp only [hd] at h
              exact absurd h (by simp)
          | str st =>
              simp only [hd] at h
              exact absurd h (by simp)
          | obj o =>
              simp only [hd] at h
              exact absurd h (by simp)
  | null => simp [fixDataset] at h
  | bool b => simp [fixDataset] at h
  | num q => simp [fixDataset] at h
  | str st => simp [fixDataset] at h
  | arr l => simp [fixDataset] at h

theorem fixChart_run2 {fs3 : List (String × JSON)} {dfs2 : List (String × JSON)}
    {fixed : List JSON}
    (f1 : lookupField fs3 "data" = some (.obj dfs2))
    (f2 : (lookupField fs3 "title").isSome)
    (f3 : (lookupField fs3 "options").isSome)
    (f4 : (lookupField fs3 "type").isSome)
    (f5 : (lookupField dfs2 "labels").isSome)
    (f6 : lookupField dfs2 "datasets" = some (.arr fixed))
    (f7 : ∀ b ∈ fixed, fixDataset (.obj dfs2) b = .ok (some b))
    (f8 : fixed.isEmpty = false) :
    fixChart (.obj fs3) = .ok (some (.obj fs3)) := by
  have hcond2 : ¬(((lookupField fs3 "type").isNone ||
      (lookupField fs3 "data").isNone) = true) := by
    obtain ⟨tv3, htv3⟩ := Option.isSome_iff_exists.mp f4
    simp [htv3, f1]
  have hT2 : ensureTitle fs3 = .ok fs3 := by
    rw [ensureTitle, if_pos f2]
  rw [fixChart, if_neg hcond2]
  simp only [hT2, pyDictGet, f1, pyContainsStr, f5, f6, Option.isSome_some,
    pyIter, filterMapE_self f7, f8, Bool.false_eq_true, if_false,
    pySetItemStr, setField_eq_self _ _ _ f6, fixChartFinish,
    setField_eq_self _ _ _ f1, if_pos f3]

theorem fixChart_fixed {c c' : JSON} (h : fixChart c = .ok (some c')) :
    fixChart c' = .ok (some c') := by
  cases c with
  | obj fs =>
      rw [fixChart] at h
      by_cases hcb : ((lookupField fs "type").isNone ||
          (lookupField fs "data").isNone) = true
      · rw [if_pos hcb] at h
        exact absurd h (by simp)
      · rw [if_neg hcb] at h
        simp only [Bool.or_eq_true, not_or, Bool.not_eq_true,
          Option.isNone_eq_false_iff] at hcb
        obtain ⟨hty, hda⟩ := hcb
        cases hT : ensureTitle fs with
        | error e =>
            simp only [hT] at h
            exact absurd h (by simp)
        | ok fs1 =>
            simp only [hT] at h
            obtain ⟨htitle1, hne1⟩ := ensureTitle_ok hT
            cases hDg : pyDictGet (.obj fs1) "data" (.obj []) with
            | error e =>
                simp only [hDg] at h
                exact absurd h (by simp)
            | ok data =>
                simp only [hDg] at h
                cases hc1 : pyContainsStr "labels" data with
                | error e =>
                    simp only [hc1] at h
                    exact absurd h (by simp)
                | ok b1 =>
                    cases b1 with
                    | false =>
                        simp only [hc1] at h
                        exact absurd h (by simp)
                    | true =>
                        simp only [hc1] at h
                        cases hc2 : pyContainsStr "datasets" data with
                        | error e =>
                            simp only [hc2] at h
                            exact absurd h (by simp)
                        | ok b2 =>
                            cases b2 with
                            | false =>
                                simp only [hc2] at h
                                exact absurd h (by simp)
                            | true =>
                                simp only [hc2] at h
                                cases hDs : pyDictGet data "datasets" (.arr []) with
                                | error e =>
                                    simp only [hDs] at h
                                    exact absurd h (by simp)
                                | ok datasetsV =>
                                    simp only [hDs] at h
                                    cases hit : pyIter datasetsV with
                                    | error e =>
                                        simp only [hit] at h
                                        exact absurd h (by simp)
                                    | ok dss =>
                                        simp only [hit] at h
                                        cases hfm : filterMapE (fixDataset data) dss with
                                        | error e =>
                                            simp only [hfm] at h
                                            exact absurd h (by simp)
                                        | ok fixed =>
                                            simp only [hfm] at h
                                            by_cases hemp : fixed.isEmpty = true
                                            · rw [if_pos hemp] at h
                                              exact absurd h (by simp)
                                            · rw [if_neg hemp] at h
                                              cases hset : pySetItemStr data "datasets" (.arr fixed) with
                                              | error e =>
                                                  simp only [hset] at h
                                                  exact absurd h (by simp)
                                              | ok data2 =>
                                                  simp only [hset] at h
                                                  -- data must be an object
                                                  cases data with
                                                  | obj dfs => ?_
                                                  | null => simp [pyDictGet] at hDs
                                                  | bool bb => simp [pyDictGet] at hDs
                                                  | num qq => simp [pyDictGet] at hDs
                                                  | str ss => simp [pyDictGet] at hDs
                                                  | arr ll => simp [pyDictGet] at hDs
                                                  -- extract facts
                                                  simp only [pyContainsStr] at hc1 hc2
                                                  injection hc1 with hc1b
                                                  injection hc2 with hc2b
                                                  simp only [pySetItemStr] at hset
                                                  injection hset with hset2
                                                  obtain ⟨dsv, hdsv⟩ := Option.isSome_iff_exists.mp hc2b
                                                  simp only [pyDictGet, hdsv] at hDs
                                                  injection hDs with hDs2
                                                  subst hDs2
                                                  -- now handle fixChartFinish
                                                  rw [fixChartFinish] at h
                                                  have hsame : pyDictGet (.obj (setField dfs "datasets" (.arr fixed)))
                                                      "labels" (.arr []) = pyDictGet (.obj dfs) "labels" (.arr []) := by
                                                    simp only [pyDictGet,
                                                      lookupField_setField_ne _ _ _ _ (by decide : ("labels" : String) ≠ "datasets")]
                                                  have f7 : ∀ b ∈ fixed,
                                                      fixDataset (.obj (setField dfs "datasets" (.arr fixed))) b = .ok (some b) := by
                                                    intro b hb
                                                    obtain ⟨a, ha, hfa⟩ := filterMapE_mem hfm b hb
                                                    exact fixDataset_fixed hfa hsame
                                                  have f5 : (lookupField (setField dfs "datasets" (.arr fixed)) "labels").isSome := by
                                                    rw [lookupField_setField_ne _ _ _ _ (by decide : ("labels" : String) ≠ "datasets")]
                                                    exact hc1b
                                                  have f6 : lookupField (setField dfs "datasets" (.arr fixed)) "datasets" =
                                                      some (.arr fixed) := lookupField_setField_self _ _ _
                                                  rw [← hset2] at h
                                                  by_cases hopt : (lookupField (setField fs1 "data"
                                                      (.obj (setField dfs "datasets" (.arr fixed)))) "options").isSome
                                                  · rw [if_pos hopt] at h
                                                    injection h with h2
                                                    injection h2 with h3
                                                    rw [← h3]
                                                    refine fixChart_run2 (lookupField_setField_self _ _ _) ?_ hopt ?_ f5 f6 f7 (by simpa using hemp)
                                                    · rw [lookupField_setField_ne _ _ _ _ (by decide : ("title" : String) ≠ "data")]
                                                      exact htitle1
                                                    · rw [lookupField_setField_ne _ _ _ _ (by decide : ("type" : String) ≠ "data"),
                                                        hne1 _ (by decide : ("type" : String) ≠ "title")]
                                                      exact hty
                                                  · rw [if_neg hopt] at h
                                                    cases hgt : pyGetItemStr (.obj (setField fs1 "data"
                                                        (.obj (setField dfs "datasets" (.arr fixed))))) "title" with
                                                    | error e =>
                                                        simp only [hgt] at h
                                                        exact absurd h (by simp)
                                                    | ok titleV =>
                                                        simp only [hgt] at h
                                                        injection h with h2
                                                        injection h2 with h3
                                                        rw [← h3]
                                                        refine fixChart_run2 ?_ ?_ ?_ ?_ f5 f6 f7 (by simpa using hemp)
                                                        · rw [lookupField_setField_ne _ _ _ _ (by decide : ("data" : String) ≠ "options")]
                                                          exact lookupField_setField_self _ _ _
                                                        · rw [lookupField_setField_ne _ _ _ _ (by decide : ("title" : String) ≠ "options"),
                                                            lookupField_setField_ne _ _ _ _ (by decide : ("title" : String) ≠ "data")]
                                                          exact htitle1
                                                        · rw [lookupField_setField_self]
                                                          rfl
                                                        · rw [lookupField_setField_ne _ _ _ _ (by decide : ("type" : String) ≠ "options"),
                                                            lookupField_setField_ne _ _ _ _ (by decide : ("type" : String) ≠ "data"),
                                                            hne1 _ (by decide : ("type" : String) ≠ "title")]
                                                          exact hty
  | null => simp [fixChart] at h
  | bool b => simp [fixChart] at h
  | num q => simp [fixChart] at h
  | str s => simp [fixChart] at h
  | arr l => simp [fixChart] at h

/-- C9: `fix_common_issues` is a fixed point on its own output — repairing
an already-repaired document changes nothing. -/
theorem claim9_fix_fixed_point (D R : JSON)
    (h : fix_common_issues D = .ok R) : fix_common_issues R = .ok R := by
  cases D with
  | obj fs =>
      rw [fix_common_issues] at h
      cases hi : pyIter ((lookupField fs "charts").getD (.arr [])) with
      | error e =>
          simp only [hi] at h
          exact absurd h (by simp)
      | ok charts =>
          simp only [hi] at h
          cases hfm : filterMapE fixChart charts with
          | error e =>
              simp only [hfm] at h
              exact absurd h (by simp)
          | ok fixed =>
              simp only [hfm] at h
              injection h with h2
              subst h2
              rw [fix_common_issues]
              simp only [lookupField_setField_self, Option.getD_some, pyIter]
              rw [filterMapE_self (fun c hc => by
                obtain ⟨a, _, hfa⟩ := filterMapE_mem hfm c hc
                exact fixChart_fixed hfa)]
              simp only [setField_eq_self _ _ _ (lookupField_setField_self _ _ _)]
  | null =>
      simp only [fix_common_issues] at h
      injection h with h2
      subst h2
      rfl
  | bool b =>
      simp only [fix_common_issues] at h
      injection h with h2
      subst h2
      rfl
  | num q =>
      simp only [fix_common_issues] at h
      injection h with h2
      subst h2
      rfl
  | str s =>
      simp only [fix_common_issues] at h
      injection h with h2
      subst h2
      rfl
  | arr l =>
      simp only [fix_common_issues] at h
      injection h with h2
      subst h2
      rfl

theorem claim9_fix_fixed_point_witness :
    fix_common_issues docBFixed = .ok docBFixed :=
  claim9_fix_fixed_point docB docBFixed (by decide)

theorem mapME_mem {f : JSON → Except String JSON} {l r : List JSON}
    (h : mapME f l = .ok r) : ∀ b ∈ r, ∃ a ∈ l, f a = .ok b := by
  induction l generalizing r with
  | nil =>
      rw [mapME] at h
      injection h with h2
      subst h2
      intro b hb
      simp at hb
  | cons a rest ih =>
      rw [mapME] at h
      cases hf : f a with
      | error e =>
          simp only [hf] at h
          exact absurd h (by simp)
      | ok b0 =>
          simp only [hf] at h
          cases hm : mapME f rest with
          | error e =>
              simp only [hm] at h
              exact absurd h (by simp)
          | ok bs =>
              simp only [hm] at h
              injection h with h2
              subst h2
              intro b hb
              rcases List.mem_cons.mp hb with h3 | h3
              · subst h3
                exact ⟨a, by simp, hf⟩
              · obtain ⟨a2, ha2, hfa2⟩ := ih hm b h3
                exact ⟨a2, by simp [ha2], hfa2⟩

theorem mapME_self {f : JSON → Except String JSON} {l : List JSON}
    (h : ∀ a ∈ l, f a = .ok a) : mapME f l = .ok l := by
  induction l with
  | nil => rfl
  | cons a rest ih =>
      rw [mapME, h a (by simp), ih (fun b hb => h b (by simp [hb]))]

theorem mapME_forall2 {f : JSON → Except String JSON} {l r : List JSON}
    (h : mapME f l = .ok r) : List.Forall₂ (fun a b => f a = .ok b) l r := by
  induction l generalizing r with
  | nil =>
      rw [mapME] at h
      injection h with h2
      subst h2
      exact List.Forall₂.nil
  | cons a rest ih =>
      rw [mapME] at h
      cases hf : f a with
      | error e =>
          simp only [hf] at h
          exact absurd h (by simp)
      | ok b0 =>
          simp only [hf] at h
          cases hm : mapME f rest with
          | error e =>
              simp only [hm] at h
              exact absurd h (by simp)
          | ok bs =>
              simp only [hm] at h
              injection h with h2
              subst h2
              exact List.Forall₂.cons hf (ih hm)

theorem themeBorder_nonobj_eq {x x' : JSON} (h : themeBorder x = .ok x')
    (hno : ∀ fs, x ≠ .obj fs) : x' = x := by
  cases x with
  | obj xf => exact absurd rfl (hno xf)
  | str s =>
      rw [themeBorder] at h
      cases hbc : pyContainsStr "borderColor" (.str s) with
      | error e =>
          simp only [hbc] at h
          exact absurd h (by simp)
      | ok b =>
          simp only [hbc] at h
          cases b with
          | false =>
              simp only [pySetItemStr] at h
              exact absurd h (by simp)
          | true =>
              cases hbw : pyContainsStr "borderWidth" (.str s) with
              | error e =>
                  simp only [hbw] at h
                  exact absurd h (by simp)
              | ok b2 =>
                  simp only [hbw] at h
                  cases b2 with
                  | false =>
                      simp only [pySetItemStr] at h
                      exact absurd h (by simp)
                  | true =>
                      injection h with h2
                      exact h2.symm
  | arr l =>
      rw [themeBorder] at h
      cases hbc : pyContainsStr "borderColor" (.arr l) with
      | error e =>
          simp only [hbc] at h
          exact absurd h (by simp)
      | ok b =>
          simp only [hbc] at h
          cases b with
          | false =>
              simp only [pySetItemStr] at h
              exact absurd h (by simp)
          | true =>
              cases hbw : pyContainsStr "borderWidth" (.arr l) with
              | error e =>
                  simp only [hbw] at h
                  exact absurd h (by simp)
              | ok b2 =>
                  simp only [hbw] at h
                  cases b2 with
                  | false =>
                      simp only [pySetItemStr] at h
                      exact absurd h (by simp)
                  | true =>
                      injection h with h2
                      exact h2.symm
  | null => simp [themeBorder, pyContainsStr] at h
  | bool b => simp [themeBorder, pyContainsStr] at h
  | num q => simp [themeBorder, pyContainsStr] at h

theorem themeBorder_fixed {x x' : JSON} (h : themeBorder x = .ok x') :
    themeBorder x' = .ok x' := by
  cases x with
  | obj xf =>
      obtain ⟨fs2, hok, hbc2, hbw2, -, -, -⟩ := themeBorder_obj_ok xf
      have hx' : x' = .obj fs2 := by
        rw [h] at hok
        injection hok with h2
      subst hx'
      rw [themeBorder]
      simp only [pyContainsStr, hbc2, hbw2]
  | str s =>
      have hxx := themeBorder_nonobj_eq h (by intro fs hq; cases hq)
      subst hxx
      exact h
  | arr l =>
      have hxx := themeBorder_nonobj_eq h (by intro fs hq; cases hq)
      subst hxx
      exact h
  | null => simp [themeBorder, pyContainsStr] at h
  | bool b => simp [themeBorder, pyContainsStr] at h
  | num q => simp [themeBorder, pyContainsStr] at h

theorem themeBorder_contains_bg {x x' : JSON} (h : themeBorder x = .ok x')
    (hc : pyContainsStr "backgroundColor" x = .ok true) :
    pyContainsStr "backgroundColor" x' = .ok true := by
  cases x with
  | obj xf =>
      obtain ⟨fs2, hok, -, -, -, -, hof⟩ := themeBorder_obj_ok xf
      have hx' : x' = .obj fs2 := by
        rw [h] at hok
        injection hok with h2
      subst hx'
      simp only [pyContainsStr] at hc ⊢
      rw [hof _ (by decide) (by decide)]
      exact hc
  | str s =>
      have hxx := themeBorder_nonobj_eq h (by intro fs hq; cases hq)
      subst hxx
      exact hc
  | arr l =>
      have hxx := themeBorder_nonobj_eq h (by intro fs hq; cases hq)
      subst hxx
      exact hc
  | null => simp [pyContainsStr] at hc
  | bool b => simp [pyContainsStr] at hc
  | num q => simp [pyContainsStr] at hc

theorem themeDataset_fixed {t ds ds' : JSON}
    (h : themeDataset t ds = .ok ds') : themeDataset t ds' = .ok ds' := by
  rw [themeDataset] at h
  cases hbg : pyContainsStr "backgroundColor" ds with
  | error e =>
      simp only [hbg] at h
      exact absurd h (by simp)
  | ok b =>
      simp only [hbg] at h
      cases b with
      | true =>
          have hbg' := themeBorder_contains_bg h hbg
          rw [themeDataset]
          simp only [hbg']
          exact themeBorder_fixed h
      | false =>
          by_cases hpie : isPieType t = true
          · rw [if_pos hpie] at h
            cases hdg : pyDictGet ds "data" (.arr []) with
            | error e =>
                simp only [hdg] at h
                exact absurd h (by simp)
            | ok dataV =>
                simp only [hdg] at h
                cases hln : pyLen dataV with
                | error e =>
                    simp only [hln] at h
                    exact absurd h (by simp)
                | ok n =>
                    simp only [hln] at h
                    cases hset : pySetItemStr ds "backgroundColor"
                        (.arr (cycledColors n)) with
                    | error e =>
                        simp only [hset] at h
                        exact absurd h (by simp)
                    | ok ds1 =>
                        simp only [hset] at h
                        cases ds with
                        | obj dsf =>
                            simp only [pySetItemStr] at hset
                            injection hset with hset2
                            have hbgs : pyContainsStr "backgroundColor" ds1 = .ok true := by
                              rw [← hset2]
                              simp only [pyContainsStr, lookupField_setField_self]
                              rfl
                            have hbg' := themeBorder_contains_bg h hbgs
                            rw [themeDataset]
                            simp only [hbg']
                            exact themeBorder_fixed h
                        | null => simp [pySetItemStr] at hset
                        | bool bb => simp [pySetItemStr] at hset
                        | num qq => simp [pySetItemStr] at hset
                        | str ss => simp [pySetItemStr] at hset
                        | arr ll => simp [pySetItemStr] at hset
          · rw [if_neg hpie] at h
            cases hset : pySetItemStr ds "backgroundColor"
                (.str "rgba(212, 175, 55, 0.6)") with
            | error e =>
                simp only [hset] at h
                exact absurd h (by simp)
            | ok ds1 =>
                simp only [hset] at h
                cases ds with
                | obj dsf =>
                    simp only [pySetItemStr] at hset
                    injection hset with hset2
                    have hbgs : pyContainsStr "backgroundColor" ds1 = .ok true := by
                      rw [← hset2]
                      simp only [pyContainsStr, lookupField_setField_self]
                      rfl
                    have hbg' := themeBorder_contains_bg h hbgs
                    rw [themeDataset]
                    simp only [hbg']
                    exact themeBorder_fixed h
                | null => simp [pySetItemStr] at hset
                | bool bb => simp [pySetItemStr] at hset
                | num qq => simp [pySetItemStr] at hset
                | str ss => simp [pySetItemStr] at hset
                | arr ll => simp [pySetItemStr] at hset

theorem themeOptionsLegend_shape {o2 o3 : JSON}
    (h : themeOptionsLegend o2 = .ok o3) :
    ∃ o3f pv3, o3 = .obj o3f ∧ lookupField o3f "plugins" = some pv3 ∧
      pyContainsStr "legend" pv3 = .ok true ∧
      ∀ pv2, pyGetItemStr o2 "plugins" = .ok pv2 →
        pyContainsStr "title" pv2 = .ok true →
        pyContainsStr "title" pv3 = .ok true := by
  rw [themeOptionsLegend] at h
  cases hg : pyGetItemStr o2 "plugins" with
  | error e =>
      simp only [hg] at h
      exact absurd h (by simp)
  | ok pv2 =>
      simp only [hg] at h
      cases hc : pyContainsStr "legend" pv2 with
      | error e =>
          simp only [hc] at h
          exact absurd h (by simp)
      | ok b =>
          simp only [hc] at h
          cases b with
          | true =>
              injection h with h2
              subst h2
              cases o2 with
              | obj o2f =>
                  cases hlk : lookupField o2f "plugins" with
                  | none =>
                      simp only [pyGetItemStr, hlk] at hg
                      exact absurd hg (by simp)
                  | some v =>
                      simp only [pyGetItemStr, hlk] at hg
                      injection hg with hg2
                      subst hg2
                      refine ⟨o2f, v, rfl, hlk, hc, ?_⟩
                      intro pv2' hg' ht'
                      injection hg' with hg2'
                      rw [← hg2'] at ht'
                      exact ht'
              | null => simp [pyGetItemStr] at hg
              | bool bb => simp [pyGetItemStr] at hg
              | num qq => simp [pyGetItemStr] at hg
              | str ss => simp [pyGetItemStr] at hg
              | arr ll => simp [pyGetItemStr] at hg
          | false =>
              cases hset : pySetItemStr pv2 "legend" defaultLegendBlock with
              | error e =>
                  simp only [hset] at h
                  exact absurd h (by simp)
              | ok pl2 =>
                  simp only [hset] at h
                  cases pv2 with
                  | obj pvf => ?_
                  | null => simp [pySetItemStr] at hset
                  | bool bb => simp [pySetItemStr] at hset
                  | num qq => simp [pySetItemStr] at hset
                  | str ss => simp [pySetItemStr] at hset
                  | arr ll => simp [pySetItemStr] at hset
                  simp only [pySetItemStr] at hset
                  injection hset with hset2
                  cases o2 with
                  | obj o2f => ?_
                  | null => simp [pySetItemStr] at h
                  | bool bb => simp [pySetItemStr] at h
                  | num qq => simp [pySetItemStr] at h
                  | str ss => simp [pySetItemStr] at h
                  | arr ll => simp [pySetItemStr] at h
                  simp only [pySetItemStr] at h
                  injection h with h2
                  refine ⟨setField o2f "plugins" pl2, pl2, h2.symm,
                    lookupField_setField_self _ _ _, ?_, ?_⟩
                  · rw [← hset2]
                    simp only [pyContainsStr, lookupField_setField_self]
                    rfl
                  · intro pv2' hg' ht'
                    injection hg' with hg2'
                    rw [← hg2'] at ht'
                    rw [← hset2]
                    simp only [pyContainsStr] at ht' ⊢
                    rw [lookupField_setField_ne _ _ _ _ (by decide)]
                    exact ht'

theorem themeOptionsTitle_shape {c1 o1 pv o3 : JSON}
    (h : themeOptionsTitle c1 o1 pv = .ok o3)
    (hg : pyGetItemStr o1 "plugins" = .ok pv) :
    ∃ o3f pv3, o3 = .obj o3f ∧ lookupField o3f "plugins" = some pv3 ∧
      pyContainsStr "title" pv3 = .ok true ∧
      pyContainsStr "legend" pv3 = .ok true := by
  rw [themeOptionsTitle] at h
  cases hc : pyContainsStr "title" pv with
  | error e =>
      simp only [hc] at h
      exact absurd h (by simp)
  | ok b =>
      simp only [hc] at h
      cases b with
      | true =>
          obtain ⟨o3f, pv3, ho3, hpl3, hleg3, htrans⟩ := themeOptionsLegend_shape h
          exact ⟨o3f, pv3, ho3, hpl3, htrans pv hg hc, hleg3⟩
      | false =>
          cases htv : pyDictGet c1 "title" (.str "Chart") with
          | error e =>
              simp only [htv] at h
              exact absurd h (by simp)
          | ok titleV =>
              simp only [htv] at h
              cases hset1 : pySetItemStr pv "title" (defaultTitleBlock titleV) with
              | error e =>
                  simp only [hset1] at h
                  exact absurd h (by simp)
              | ok pl1 =>
                  simp only [hset1] at h
                  cases hset2 : pySetItemStr o1 "plugins" pl1 with
                  | error e =>
                      simp only [hset2] at h
                      exact absurd h (by simp)
                  | ok o2 =>
                      simp only [hset2] at h
                      cases pv with
                      | obj pvf => ?_
                      | null => simp [pySetItemStr] at hset1
                      | bool bb => simp [pySetItemStr] at hset1
                      | num qq => simp [pySetItemStr] at hset1
                      | str ss => simp [pySetItemStr] at hset1
                      | arr ll => simp [pySetItemStr] at hset1
                      simp only [pySetItemStr] at hset1
                      injection hset1 with hset1b
                      cases o1 with
                      | obj o1f => ?_
                      | null => simp [pySetItemStr] at hset2
                      | bool bb => simp [pySetItemStr] at hset2
                      | num qq => simp [pySetItemStr] at hset2
                      | str ss => simp [pySetItemStr] at hset2
                      | arr ll => simp [pySetItemStr] at hset2
                      simp only [pySetItemStr] at hset2
                      injection hset2 with hset2b
                      obtain ⟨o3f, pv3, ho3, hpl3, hleg3, htrans⟩ :=
                        themeOptionsLegend_shape h
                      refine ⟨o3f, pv3, ho3, hpl3, ?_, hleg3⟩
                      refine htrans pl1 ?_ ?_
                      · rw [← hset2b]
                        simp only [pyGetItemStr, lookupField_setField_self]
                      · rw [← hset1b]
                        simp only [pyContainsStr, lookupField_setField_self]
                        rfl

theorem themeOptions_shape {c1 o3 : JSON} (h : themeOptions c1 = .ok o3) :
    ∃ o3f pv3, o3 = .obj o3f ∧ lookupField o3f "plugins" = some pv3 ∧
      pyContainsStr "title" pv3 = .ok true ∧
      pyContainsStr "legend" pv3 = .ok true := by
  rw [themeOptions] at h
  cases hopt : pyDictGet c1 "options" (.obj []) with
  | error e =>
      simp only [hopt] at h
      exact absurd h (by simp)
  | ok options =>
      simp only [hopt] at h
      cases hpl : pyContainsStr "plugins" options with
      | error e =>
          simp only [hpl] at h
          exact absurd h (by simp)
      | ok b =>
          simp only [hpl] at h
          cases b with
          | true =>
              cases hg : pyGetItemStr options "plugins" with
              | error e =>
                  simp only [hg] at h
                  exact absurd h (by simp)
              | ok pv =>
                  simp only [hg] at h
                  exact themeOptionsTitle_shape h hg
          | false =>
              cases hset : pySetItemStr options "plugins" (.obj []) with
              | error e =>
                  simp only [hset] at h
                  exact absurd h (by simp)
              | ok options1 =>
                  simp only [hset] at h
                  cases hg : pyGetItemStr options1 "plugins" with
                  | error e =>
                      simp only [hg] at h
                      exact absurd h (by simp)
                  | ok pv =>
                      simp only [hg] at h
                      exact themeOptionsTitle_shape h hg

theorem themeOptions_shape_run {o3f : List (String × JSON)} {pv3 : JSON}
    (hpl : lookupField o3f "plugins" = some pv3)
    (ht : pyContainsStr "title" pv3 = .ok true)
    (hl : pyContainsStr "legend" pv3 = .ok true)
    {cfs : List (String × JSON)}
    (hopt : lookupField cfs "options" = some (.obj o3f)) :
    themeOptions (.obj cfs) = .ok (.obj o3f) := by
  rw [themeOptions]
  simp only [pyDictGet, hopt, pyContainsStr, hpl, Option.isSome_some,
    pyGetItemStr]
  rw [themeOptionsTitle]
  simp only [ht]
  rw [themeOptionsLegend]
  simp only [pyGetItemStr, hpl, hl]

theorem themeChart_run2 {cfs3 : List (String × JSON)} {chartType dataV datasetsV : JSON}
    {dsIter dss2 : List JSON} {o3f : List (String × JSON)} {pv3 : JSON}
    (hty : pyDictGet (.obj cfs3) "type" (.str "bar") = .ok chartType)
    (hdv : pyDictGet (.obj cfs3) "data" (.obj []) = .ok dataV)
    (hdsv : pyDictGet dataV "datasets" (.arr []) = .ok datasetsV)
    (hit : pyIter datasetsV = .ok dsIter)
    (hmm2 : mapME (themeDataset chartType) dsIter = .ok dss2)
    (hwb : writeBackDatasets (.obj cfs3) dss2 = .obj cfs3)
    (hopt : lookupField cfs3 "options" = some (.obj o3f))
    (hpl : lookupField o3f "plugins" = some pv3)
    (htt : pyContainsStr "title" pv3 = .ok true)
    (hll : pyContainsStr "legend" pv3 = .ok true)
    (hself : setField cfs3 "options" (.obj o3f) = cfs3) :
    themeChart (.obj cfs3) = .ok (.obj cfs3) := by
  rw [themeChart]
  simp only [hty, hdv, hdsv, hit, hmm2, hwb,
    themeOptions_shape_run hpl htt hll hopt, pySetItemStr, hself]

theorem themeChart_fixed {c c' : JSON} (h : themeChart c = .ok c') :
    themeChart c' = .ok c' := by
  cases c with
  | obj cfs => ?_
  | null => simp [themeChart, pyDictGet] at h
  | bool b => simp [themeChart, pyDictGet] at h
  | num q => simp [themeChart, pyDictGet] at h
  | str s => simp [themeChart, pyDictGet] at h
  | arr l => simp [themeChart, pyDictGet] at h
  rw [themeChart] at h
  cases hty : pyDictGet (.obj cfs) "type" (.str "bar") with
  | error e =>
      simp only [hty] at h
      exact absurd h (by simp)
  | ok chartType =>
  simp only [hty] at h
  cases hdv : pyDictGet (.obj cfs) "data" (.obj []) with
  | error e =>
      simp only [hdv] at h
      exact absurd h (by simp)
  | ok dataV =>
  simp only [hdv] at h
  cases hdsv : pyDictGet dataV "datasets" (.arr []) with
  | error e =>
      simp only [hdsv] at h
      exact absurd h (by simp)
  | ok datasetsV =>
  simp only [hdsv] at h
  cases hit : pyIter datasetsV with
  | error e =>
      simp only [hit] at h
      exact absurd h (by simp)
  | ok dsIter =>
  simp only [hit] at h
  cases hmm2 : mapME (themeDataset chartType) dsIter with
  | error e =>
      simp only [hmm2] at h
      exact absurd h (by simp)
  | ok dss2 =>
  simp only [hmm2] at h
  cases hto : themeOptions (writeBackDatasets (.obj cfs) dss2) with
  | error e =>
      simp only [hto] at h
      exact absurd h (by simp)
  | ok o3 =>
  simp only [hto] at h
  obtain ⟨o3f, pv3, ho3, hpl, htt, hll⟩ := themeOptions_shape hto
  subst ho3
  have hltype : ∀ fsy : List (String × JSON),
      lookupField fsy "type" = lookupField cfs "type" →
      pyDictGet (.obj fsy) "type" (.str "bar") = .ok chartType := by
    intro fsy hxy
    simp only [pyDictGet] at hty ⊢
    rw [hxy]
    exact hty
  cases hld : lookupField cfs "data" with
  | none =>
      have hwb1 : writeBackDatasets (.obj cfs) dss2 = .obj cfs := by
        simp only [writeBackDatasets, hld]
      rw [hwb1] at h hto
      simp only [pySetItemStr] at h
      injection h with h2
      rw [← h2]
      simp only [pyDictGet, hld] at hdv
      injection hdv with hdv2
      refine themeChart_run2 (hltype _
          (lookupField_setField_ne _ _ _ _ (by decide))) ?_ hdsv hit hmm2 ?_
          (lookupField_setField_self _ _ _) hpl htt hll
          (setField_eq_self _ _ _ (lookupField_setField_self _ _ _))
      · simp only [pyDictGet, lookupField_setField_ne _ _ _ _
          (by decide : ("data" : String) ≠ "options"), hld]
        rw [hdv2]
      · simp only [writeBackDatasets,
          lookupField_setField_ne _ _ _ _ (by decide : ("data" : String) ≠ "options"),
          hld]
  | some dv =>
  simp only [pyDictGet, hld] at hdv
  injection hdv with hdv2
  subst hdv2
  cases dv with
  | null => simp [pyDictGet] at hdsv
  | bool bb => simp [pyDictGet] at hdsv
  | num qq => simp [pyDictGet] at hdsv
  | str ss => simp [pyDictGet] at hdsv
  | arr ll => simp [pyDictGet] at hdsv
  | obj dfs =>
  cases hldd : lookupField dfs "datasets" with
  | none =>
      have hwb1 : writeBackDatasets (.obj cfs) dss2 = .obj cfs := by
        simp only [writeBackDatasets, hld, hldd]
      rw [hwb1] at h hto
      simp only [pySetItemStr] at h
      injection h with h2
      rw [← h2]
      refine themeChart_run2 (hltype _
          (lookupField_setField_ne _ _ _ _ (by decide))) ?_ hdsv hit hmm2 ?_
          (lookupField_setField_self _ _ _) hpl htt hll
          (setField_eq_self _ _ _ (lookupField_setField_self _ _ _))
      · simp only [pyDictGet, lookupField_setField_ne _ _ _ _
          (by decide : ("data" : String) ≠ "options"), hld]
      · simp only [writeBackDatasets,
          lookupField_setField_ne _ _ _ _ (by decide : ("data" : String) ≠ "options"),
          hld, hldd]
  | some w =>
  cases w with
  | null =>
      simp only [pyDictGet, hldd] at hdsv
      injection hdsv with hdsv2
      rw [← hdsv2] at hit
      simp [pyIter] at hit
  | bool bb =>
      simp only [pyDictGet, hldd] at hdsv
      injection hdsv with hdsv2
      rw [← hdsv2] at hit
      simp [pyIter] at hit
  | num qq =>
      simp only [pyDictGet, hldd] at hdsv
      injection hdsv with hdsv2
      rw [← hdsv2] at hit
      simp [pyIter] at hit
  | str ss =>
      have hwb1 : writeBackDatasets (.obj cfs) dss2 = .obj cfs := by
        simp only [writeBackDatasets, hld, hldd]
      rw [hwb1] at h hto
      simp only [pySetItemStr] at h
      injection h with h2
      rw [← h2]
      refine themeChart_run2 (hltype _
          (lookupField_setField_ne _ _ _ _ (by decide))) ?_ hdsv hit hmm2 ?_
          (lookupField_setField_self _ _ _) hpl htt hll
          (setField_eq_self _ _ _ (lookupField_setField_self _ _ _))
      · simp only [pyDictGet, lookupField_setField_ne _ _ _ _
          (by decide : ("data" : String) ≠ "options"), hld]
      · simp only [writeBackDatasets,
          lookupField_setField_ne _ _ _ _ (by decide : ("data" : String) ≠ "options"),
          hld, hldd]
  | obj oo =>
      have hwb1 : writeBackDatasets (.obj cfs) dss2 = .obj cfs := by
        simp only [writeBackDatasets, hld, hldd]
      rw [hwb1] at h hto
      simp only [pySetItemStr] at h
      injection h with h2
      rw [← h2]
      refine themeChart_run2 (hltype _
          (lookupField_setField_ne _ _ _ _ (by decide))) ?_ hdsv hit hmm2 ?_
          (lookupField_setField_self _ _ _) hpl htt hll
          (setField_eq_self _ _ _ (lookupField_setField_self _ _ _))
      · simp only [pyDictGet, lookupField_setField_ne _ _ _ _
          (by decide : ("data" : String) ≠ "options"), hld]
      · simp only [writeBackDatasets,
          lookupField_setField_ne _ _ _ _ (by decide : ("data" : String) ≠ "options"),
          hld, hldd]
  | arr al =>
      simp only [pyDictGet, hldd] at hdsv
      injection hdsv with hdsv2
      have hwb1 : writeBackDatasets (.obj cfs) dss2 =
          .obj (setField cfs "data" (.obj (setField dfs "datasets" (.arr dss2)))) := by
        simp only [writeBackDatasets, hld, hldd]
      rw [hwb1] at h hto
      simp only [pySetItemStr] at h
      injection h with h2
      rw [← h2]
      have hfix : ∀ b ∈ dss2, themeDataset chartType b = .ok b := by
        intro b hb
        obtain ⟨a, -, hfa⟩ := mapME_mem hmm2 b hb
        exact themeDataset_fixed hfa
      have hdv3 : pyDictGet (.obj (setField (setField cfs "data"
          (.obj (setField dfs "datasets" (.arr dss2)))) "options" (.obj o3f)))
          "data" (.obj []) = .ok (.obj (setField dfs "datasets" (.arr dss2))) := by
        simp only [pyDictGet, lookupField_setField_ne _ _ _ _
          (by decide : ("data" : String) ≠ "options"), lookupField_setField_self]
      have hdsv3 : pyDictGet (.obj (setField dfs "datasets" (.arr dss2)))
          "datasets" (.arr []) = .ok (.arr dss2) := by
        simp only [pyDictGet, lookupField_setField_self]
      refine themeChart_run2 (hltype _ ?_) hdv3 hdsv3 rfl (mapME_self hfix) ?_
          (lookupField_setField_self _ _ _) hpl htt hll
          (setField_eq_self _ _ _ (lookupField_setField_self _ _ _))
      · rw [lookupField_setField_ne _ _ _ _ (by decide : ("type" : String) ≠ "options"),
          lookupField_setField_ne _ _ _ _ (by decide : ("type" : String) ≠ "data")]
      · have hin : setField (setField dfs "datasets" (.arr dss2)) "datasets"
            (.arr dss2) = setField dfs "datasets" (.arr dss2) :=
          setField_eq_self _ _ _ (lookupField_setField_self _ _ _)
        have hout : lookupField (setField (setField cfs "data"
            (.obj (setField dfs "datasets" (.arr dss2)))) "options" (.obj o3f))
            "data" = some (.obj (setField dfs "datasets" (.arr dss2))) := by
          rw [lookupField_setField_ne _ _ _ _ (by decide : ("data" : String) ≠ "options"),
            lookupField_setField_self]
        simp only [writeBackDatasets, hout, lookupField_setField_self, hin,
          setField_eq_self _ _ _ hout]

theorem apply_rules_fixed {D R : JSON}
    (h : apply_visualization_rules D = .ok R) :
    apply_visualization_rules R = .ok R := by
  cases D with
  | obj fs =>
      rw [apply_visualization_rules] at h
      by_cases hch : (lookupField fs "charts").isNone
      · rw [if_pos hch] at h
        injection h with h2
        subst h2
        rw [apply_visualization_rules, if_pos hch]
      · rw [if_neg hch] at h
        cases hit : pyIter ((lookupField fs "charts").getD (.arr [])) with
        | error e =>
            simp only [hit] at h
            exact absurd h (by simp)
        | ok charts =>
            simp only [hit] at h
            cases hmm2 : mapME themeChart charts with
            | error e =>
                simp only [hmm2] at h
                exact absurd h (by simp)
            | ok charts2 =>
                simp only [hmm2] at h
                cases hlk : lookupField fs "charts" with
                | none =>
                    exact absurd hlk
                      (by simpa [Option.isNone_iff_eq_none] using hch)
                | some chv =>
                    simp only [hlk, Option.getD_some] at h hit
                    cases chv with
                    | arr al =>
                        injection h with h2
                        subst h2
                        have hfix : ∀ b ∈ charts2, themeChart b = .ok b := by
                          intro b hb
                          obtain ⟨a, -, hfa⟩ := mapME_mem hmm2 b hb
                          exact themeChart_fixed hfa
                        rw [apply_visualization_rules,
                          if_neg (by simp [lookupField_setField_self])]
                        simp only [lookupField_setField_self, Option.getD_some,
                          pyIter, mapME_self hfix,
                          setField_eq_self _ _ _ (lookupField_setField_self _ _ _)]
                    | null =>
                        injection h with h2
                        subst h2
                        rw [apply_visualization_rules, if_neg hch]
                        simp only [hlk, Option.getD_some, hit, hmm2]
                    | bool bb =>
                        injection h with h2
                        subst h2
                        rw [apply_visualization_rules, if_neg hch]
                        simp only [hlk, Option.getD_some, hit, hmm2]
                    | num qq =>
                        injection h with h2
                        subst h2
                        rw [apply_visualization_rules, if_neg hch]
                        simp only [hlk, Option.getD_some, hit, hmm2]
                    | str ss =>
                        injection h with h2
                        subst h2
                        rw [apply_visualization_rules, if_neg hch]
                        simp only [hlk, Option.getD_some, hit, hmm2]
                    | obj oo =>
                        injection h with h2
                        subst h2
                        rw [apply_visualization_rules, if_neg hch]
                        simp only [hlk, Option.getD_some, hit, hmm2]
  | null =>
      simp only [apply_visualization_rules] at h
      injection h with h2
      subst h2
      rfl
  | bool b =>
      simp only [apply_visualization_rules] at h
      injection h with h2
      subst h2
      rfl
  | num q =>
      simp only [apply_visualization_rules] at h
      injection h with h2
      subst h2
      rfl
  | str s =>
      simp only [apply_visualization_rules] at h
      injection h with h2
      subst h2
      rfl
  | arr l =>
      simp only [apply_visualization_rules] at h
      injection h with h2
      subst h2
      rfl

/-- C4: theming is idempotent on valid documents — composing
`apply_visualization_rules` with itself in the exception monad gives the
same result as a single application. -/
theorem claim4_theme_idempotent (D : JSON)
    (_hvalid : validate_config D = (true, "")) :
    (apply_visualization_rules D >>= apply_visualization_rules) =
      apply_visualization_rules D := by
  cases hA : apply_visualization_rules D with
  | error e => rfl
  | ok R =>
      show apply_visualization_rules R = .ok R
      exact apply_rules_fixed hA

theorem claim4_theme_idempotent_witness :
    (apply_visualization_rules docThemed >>= apply_visualization_rules) =
      apply_visualization_rules docThemed :=
  claim4_theme_idempotent docThemed (by decide)

theorem themeBorder_preserves {x x' : JSON} (h : themeBorder x = .ok x') :
    ∀ k v, lookupJ x k = some v → lookupJ x' k = some v := by
  intro k v hv
  cases x with
  | obj xf =>
      obtain ⟨fs2, hok, -, -, hbc, hbw, hother⟩ := themeBorder_obj_ok xf
      have hx' : x' = .obj fs2 := by
        rw [h] at hok
        injection hok with h2
      subst hx'
      by_cases hk1 : k = "borderColor"
      · subst hk1
        exact hbc v hv
      · by_cases hk2 : k = "borderWidth"
        · subst hk2
          exact hbw v hv
        · show lookupField fs2 k = some v
          rw [hother k hk1 hk2]
          exact hv
  | str s =>
      have hxx := themeBorder_nonobj_eq h (by intro fs hq; cases hq)
      subst hxx
      exact hv
  | arr l =>
      have hxx := themeBorder_nonobj_eq h (by intro fs hq; cases hq)
      subst hxx
      exact hv
  | null => simp [lookupJ] at hv
  | bool b => simp [lookupJ] at hv
  | num q => simp [lookupJ] at hv

theorem themeDataset_preserves {t ds ds' : JSON}
    (h : themeDataset t ds = .ok ds') :
    ∀ k v, lookupJ ds k = some v → lookupJ ds' k = some v := by
  intro k v hv
  rw [themeDataset] at h
  cases hbg : pyContainsStr "backgroundColor" ds with
  | error e =>
      simp only [hbg] at h
      exact absurd h (by simp)
  | ok b =>
      simp only [hbg] at h
      cases b with
      | true => exact themeBorder_preserves h k v hv
      | false =>
          have hstep : ∀ w ds1, pySetItemStr ds "backgroundColor" w = .ok ds1 →
              themeBorder ds1 = .ok ds' → lookupJ ds' k = some v := by
            intro w ds1 hset hb
            cases ds with
            | obj dsf =>
                simp only [pySetItemStr] at hset
                injection hset with hset2
                refine themeBorder_preserves hb k v ?_
                rw [← hset2]
                have hkbg : k ≠ "backgroundColor" := by
                  intro hk
                  subst hk
                  simp only [pyContainsStr] at hbg
                  injection hbg with hbg2
                  simp only [lookupJ] at hv
                  rw [hv] at hbg2
                  simp at hbg2
                show lookupField (setField dsf "backgroundColor" w) k = some v
                rw [lookupField_setField_ne _ _ _ _ hkbg]
                exact hv
            | null => simp [pySetItemStr] at hset
            | bool bb => simp [pySetItemStr] at hset
            | num qq => simp [pySetItemStr] at hset
            | str ss => simp [pySetItemStr] at hset
            | arr ll => simp [pySetItemStr] at hset
          by_cases hpie : isPieType t = true
          · rw [if_pos hpie] at h
            cases hdg : pyDictGet ds "data" (.arr []) with
            | error e =>
                simp only [hdg] at h
                exact absurd h (by simp)
            | ok dataV =>
                simp only [hdg] at h
                cases hln : pyLen dataV with
                | error e =>
                    simp only [hln] at h
                    exact absurd h (by simp)
                | ok n =>
                    simp only [hln] at h
                    cases hset : pySetItemStr ds "backgroundColor"
                        (.arr (cycledColors n)) with
                    | error e =>
                        simp only [hset] at h
                        exact absurd h (by simp)
                    | ok ds1 =>
                        simp only [hset] at h
                        exact hstep _ ds1 hset h
          · rw [if_neg hpie] at h
            cases hset : pySetItemStr ds "backgroundColor"
                (.str "rgba(212, 175, 55, 0.6)") with
            | error e =>
                simp only [hset] at h
                exact absurd h (by simp)
            | ok ds1 =>
                simp only [hset] at h
                exact hstep _ ds1 hset h

theorem themeOptionsLegend_preserves {o2 o3 : JSON}
    (h : themeOptionsLegend o2 = .ok o3)
    {o2f pv2f : List (String × JSON)}
    (ho2 : o2 = .obj o2f)
    (hpv : lookupField o2f "plugins" = some (.obj pv2f)) :
    ∀ k v, lookupField pv2f k = some v →
      ∃ o3f pv3f, o3 = .obj o3f ∧
        lookupField o3f "plugins" = some (.obj pv3f) ∧
        lookupField pv3f k = some v := by
  intro k v hv
  subst ho2
  rw [themeOptionsLegend] at h
  simp only [pyGetItemStr, hpv] at h
  cases hleg : lookupField pv2f "legend" with
  | some w =>
      simp only [pyContainsStr, hleg, Option.isSome_some] at h
      injection h with h2
      subst h2
      exact ⟨o2f, pv2f, rfl, hpv, hv⟩
  | none =>
      simp only [pyContainsStr, hleg, Option.isSome_none, pySetItemStr] at h
      injection h with h2
      subst h2
      have hk : k ≠ "legend" := by
        intro hk
        subst hk
        rw [hleg] at hv
        cases hv
      refine ⟨setField o2f "plugins" (.obj (setField pv2f "legend" defaultLegendBlock)),
        setField pv2f "legend" defaultLegendBlock, rfl,
        lookupField_setField_self _ _ _, ?_⟩
      rw [lookupField_setField_ne _ _ _ _ hk]
      exact hv

theorem themeOptionsTitle_preserves {c1 o1 pv o3 : JSON}
    (h : themeOptionsTitle c1 o1 pv = .ok o3)
    {o1f pv1f : List (String × JSON)}
    (ho1 : o1 = .obj o1f) (hpv0 : pv = .obj pv1f)
    (hpl : lookupField o1f "plugins" = some (.obj pv1f)) :
    ∀ k v, lookupField pv1f k = some v →
      ∃ o3f pv3f, o3 = .obj o3f ∧
        lookupField o3f "plugins" = some (.obj pv3f) ∧
        lookupField pv3f k = some v := by
  intro k v hv
  subst ho1
  subst hpv0
  rw [themeOptionsTitle] at h
  cases htit : lookupField pv1f "title" with
  | some w =>
      simp only [pyContainsStr, htit, Option.isSome_some] at h
      exact themeOptionsLegend_preserves h rfl hpl k v hv
  | none =>
      simp only [pyContainsStr, htit, Option.isSome_none] at h
      cases hti : pyDictGet c1 "title" (.str "Chart") with
      | error e =>
          simp only [hti] at h
          exact absurd h (by simp)
      | ok titleV =>
          simp only [hti, pySetItemStr] at h
          have hk : k ≠ "title" := by
            intro hk
            subst hk
            rw [htit] at hv
            cases hv
          refine themeOptionsLegend_preserves h rfl
            (lookupField_setField_self _ _ _) k v ?_
          rw [lookupField_setField_ne _ _ _ _ hk]
          exact hv

theorem themeOptions_preserves {c1 o3 : JSON} (h : themeOptions c1 = .ok o3)
    {ovf pvf : List (String × JSON)}
    (hov : lookupJ c1 "options" = some (.obj ovf))
    (hpv : lookupField ovf "plugins" = some (.obj pvf)) :
    ∀ k v, lookupField pvf k = some v →
      ∃ o3f pv3f, o3 = .obj o3f ∧
        lookupField o3f "plugins" = some (.obj pv3f) ∧
        lookupField pv3f k = some v := by
  intro k v hv
  rw [themeOptions] at h
  cases c1 with
  | obj c1f => ?_
  | null => simp [lookupJ] at hov
  | bool b => simp [lookupJ] at hov
  | num q => simp [lookupJ] at hov
  | str s => simp [lookupJ] at hov
  | arr l => simp [lookupJ] at hov
  simp only [lookupJ] at hov
  simp only [pyDictGet, hov] at h
  simp only [pyContainsStr, hpv, Option.isSome_some] at h
  simp only [pyGetItemStr, hpv] at h
  exact themeOptionsTitle_preserves h rfl rfl hpv k v hv

theorem themeChart_dest {c c' : JSON} (h : themeChart c = .ok c') :
    ∃ cfs chartType cfs1 o3,
      c = .obj cfs ∧
      themeOptions (.obj cfs1) = .ok o3 ∧
      c' = .obj (setField cfs1 "options" o3) ∧
      lookupField cfs1 "options" = lookupField cfs "options" ∧
      List.Forall₂ (fun a b => themeDataset chartType a = .ok b)
        (datasetsOf c) (datasetsOf c') := by
  cases c with
  | obj cfs => ?_
  | null => simp [themeChart, pyDictGet] at h
  | bool b => simp [themeChart, pyDictGet] at h
  | num q => simp [themeChart, pyDictGet] at h
  | str s => simp [themeChart, pyDictGet] at h
  | arr l => simp [themeChart, pyDictGet] at h
  rw [themeChart] at h
  cases hty : pyDictGet (.obj cfs) "type" (.str "bar") with
  | error e =>
      simp only [hty] at h
      exact absurd h (by simp)
  | ok chartType =>
  simp only [hty] at h
  cases hdv : pyDictGet (.obj cfs) "data" (.obj []) with
  | error e =>
      simp only [hdv] at h
      exact absurd h (by simp)
  | ok dataV =>
  simp only [hdv] at h
  cases hdsv : pyDictGet dataV "datasets" (.arr []) with
  | error e =>
      simp only [hdsv] at h
      exact absurd h (by simp)
  | ok datasetsV =>
  simp only [hdsv] at h
  cases hit : pyIter datasetsV with
  | error e =>
      simp only [hit] at h
      exact absurd h (by simp)
  | ok dsIter =>
  simp only [hit] at h
  cases hmm2 : mapME (themeDataset chartType) dsIter with
  | error e =>
      simp only [hmm2] at h
      exact absurd h (by simp)
  | ok dss2 =>
  simp only [hmm2] at h
  cases hto : themeOptions (writeBackDatasets (.obj cfs) dss2) with
  | error e =>
      simp only [hto] at h
      exact absurd h (by simp)
  | ok o3 =>
  simp only [hto] at h
  cases hld : lookupField cfs "data" with
  | none =>
      have hwb1 : writeBackDatasets (.obj cfs) dss2 = .obj cfs := by
        simp only [writeBackDatasets, hld]
      rw [hwb1] at h hto
      simp only [pySetItemStr] at h
      injection h with h2
      subst h2
      refine ⟨cfs, chartType, cfs, o3, rfl, hto, rfl, rfl, ?_⟩
      have hdc : datasetsOf (.obj cfs) = [] := by
        simp only [datasetsOf, lookupJ, hld]
      have hdc' : datasetsOf (.obj (setField cfs "options" o3)) = [] := by
        simp only [datasetsOf, lookupJ,
          lookupField_setField_ne _ _ _ _ (by decide : ("data" : String) ≠ "options"),
          hld]
      rw [hdc, hdc']
      exact List.Forall₂.nil
  | some dv =>
  simp only [pyDictGet, hld] at hdv
  injection hdv with hdv2
  subst hdv2
  cases dv with
  | null => simp [pyDictGet] at hdsv
  | bool bb => simp [pyDictGet] at hdsv
  | num qq => simp [pyDictGet] at hdsv
  | str ss => simp [pyDictGet] at hdsv
  | arr ll => simp [pyDictGet] at hdsv
  | obj dfs =>
  cases hldd : lookupField dfs "datasets" with
  | none =>
      have hwb1 : writeBackDatasets (.obj cfs) dss2 = .obj cfs := by
        simp only [writeBackDatasets, hld, hldd]
      rw [hwb1] at h hto
      simp only [pySetItemStr] at h
      injection h with h2
      subst h2
      refine ⟨cfs, chartType, cfs, o3, rfl, hto, rfl, rfl, ?_⟩
      have hdc : datasetsOf (.obj cfs) = [] := by
        simp only [datasetsOf, lookupJ, hld, hldd]
      have hdc' : datasetsOf (.obj (setField cfs "options" o3)) = [] := by
        simp only [datasetsOf, lookupJ,
          lookupField_setField_ne _ _ _ _ (by decide : ("data" : String) ≠ "options"),
          hld, hldd]
      rw [hdc, hdc']
      exact List.Forall₂.nil
  | some w =>
  cases w with
  | null =>
      simp only [pyDictGet, hldd] at hdsv
      injection hdsv with hdsv2
      rw [← hdsv2] at hit
      simp [pyIter] at hit
  | bool bb =>
      simp only [pyDictGet, hldd] at hdsv
      injection hdsv with hdsv2
      rw [← hdsv2] at hit
      simp [pyIter] at hit
  | num qq =>
      simp only [pyDictGet, hldd] at hdsv
      injection hdsv with hdsv2
      rw [← hdsv2] at hit
      simp [pyIter] at hit
  | str ss =>
      have hwb1 : writeBackDatasets (.obj cfs) dss2 = .obj cfs := by
        simp only [writeBackDatasets, hld, hldd]
      rw [hwb1] at h hto
      simp only [pySetItemStr] at h
      injection h with h2
      subst h2
      refine ⟨cfs, chartType, cfs, o3, rfl, hto, rfl, rfl, ?_⟩
      have hdc : datasetsOf (.obj cfs) = [] := by
        simp only [datasetsOf, lookupJ, hld, hldd]
      have hdc' : datasetsOf (.obj (setField cfs "options" o3)) = [] := by
        simp only [datasetsOf, lookupJ,
          lookupField_setField_ne _ _ _ _ (by decide : ("data" : String) ≠ "options"),
          hld, hldd]
      rw [hdc, hdc']
      exact List.Forall₂.nil
  | obj oo =>
      have hwb1 : writeBackDatasets (.obj cfs) dss2 = .obj cfs := by
        simp only [writeBackDatasets, hld, hldd]
      rw [hwb1] at h hto
      simp only [pySetItemStr] at h
      injection h with h2
      subst h2
      refine ⟨cfs, chartType, cfs, o3, rfl, hto, rfl, rfl, ?_⟩
      have hdc : datasetsOf (.obj cfs) = [] := by
        simp only [datasetsOf, lookupJ, hld, hldd]
      have hdc' : datasetsOf (.obj (setField cfs "options" o3)) = [] := by
        simp only [datasetsOf, lookupJ,
          lookupField_setField_ne _ _ _ _ (by decide : ("data" : String) ≠ "options"),
          hld, hldd]
      rw [hdc, hdc']
      exact List.Forall₂.nil
  | arr al =>
      simp only [pyDictGet, hldd] at hdsv
      injection hdsv with hdsv2
      rw [← hdsv2] at hit
      simp only [pyIter] at hit
      injection hit with hit2
      rw [← hit2] at hmm2
      have hwb1 : writeBackDatasets (.obj cfs) dss2 =
          .obj (setField cfs "data" (.obj (setField dfs "datasets" (.arr dss2)))) := by
        simp only [writeBackDatasets, hld, hldd]
      rw [hwb1] at h hto
      simp only [pySetItemStr] at h
      injection h with h2
      subst h2
      refine ⟨cfs, chartType,
        setField cfs "data" (.obj (setField dfs "datasets" (.arr dss2))), o3,
        rfl, hto, rfl,
        lookupField_setField_ne _ _ _ _ (by decide : ("options" : String) ≠ "data"), ?_⟩
      have hdc : datasetsOf (.obj cfs) = al := by
        simp only [datasetsOf, lookupJ, hld, hldd]
      have hdc' : datasetsOf (.obj (setField (setField cfs "data"
          (.obj (setField dfs "datasets" (.arr dss2)))) "options" o3)) = dss2 := by
        simp only [datasetsOf, lookupJ,
          lookupField_setField_ne _ _ _ _ (by decide : ("data" : String) ≠ "options"),
          lookupField_setField_self]
      rw [hdc, hdc']
      exact mapME_forall2 hmm2

theorem themeChart_path {cfs cfs1 : List (String × JSON)} {o3 c c' : JSON}
    (hto : themeOptions (.obj cfs1) = .ok o3)
    (hoeq : lookupField cfs1 "options" = lookupField cfs "options")
    (hc : c = .obj cfs)
    (hc' : c' = .obj (setField cfs1 "options" o3))
    (k : String) (v : JSON)
    (hv : pluginsPathOf c k = some v) :
    pluginsPathOf c' k = some v := by
  subst hc
  subst hc'
  rw [pluginsPathOf] at hv
  cases hov : lookupJ (.obj cfs) "options" with
  | none =>
      simp only [hov] at hv
      cases hv
  | some ov =>
      simp only [hov] at hv
      cases ov with
      | null => simp [lookupJ] at hv
      | bool b => simp [lookupJ] at hv
      | num q => simp [lookupJ] at hv
      | str s => simp [lookupJ] at hv
      | arr l => simp [lookupJ] at hv
      | obj ovf =>
          cases hpl : lookupField ovf "plugins" with
          | none =>
              simp only [lookupJ, hpl] at hv
              cases hv
          | some pv =>
              simp only [lookupJ, hpl] at hv
              cases pv with
              | null => simp [lookupJ] at hv
              | bool b => simp [lookupJ] at hv
              | num q => simp [lookupJ] at hv
              | str s => simp [lookupJ] at hv
              | arr l => simp [lookupJ] at hv
              | obj pvf =>
                  simp only [lookupJ] at hv
                  have hov1 : lookupJ (.obj cfs1) "options" = some (.obj ovf) := by
                    simp only [lookupJ]
                    rw [hoeq]
                    exact hov
                  obtain ⟨o3f, pv3f, ho3, hpl3, hk3⟩ :=
                    themeOptions_preserves hto hov1 hpl k v hv
                  subst ho3
                  rw [pluginsPathOf]
                  simp only [lookupJ, lookupField_setField_self, hpl3]
                  exact hk3

theorem themeChart_pair {c c' : JSON} (h : themeChart c = .ok c') :
    (∀ v, pluginsPathOf c "title" = some v → pluginsPathOf c' "title" = some v) ∧
    (∀ v, pluginsPathOf c "legend" = some v →
      pluginsPathOf c' "legend" = some v) ∧
    List.Forall₂ (fun ds ds' =>
      (∀ v, lookupJ ds "backgroundColor" = some v →
        lookupJ ds' "backgroundColor" = some v) ∧
      (∀ v, lookupJ ds "borderColor" = some v →
        lookupJ ds' "borderColor" = some v) ∧
      (∀ v, lookupJ ds "borderWidth" = some v →
        lookupJ ds' "borderWidth" = some v))
      (datasetsOf c) (datasetsOf c') := by
  obtain ⟨cfs, chartType, cfs1, o3, hc, hto, hc', hoeq, hfa⟩ := themeChart_dest h
  refine ⟨?_, ?_, ?_⟩
  · intro v hv
    exact themeChart_path hto hoeq hc hc' "title" v hv
  · intro v hv
    exact themeChart_path hto hoeq hc hc' "legend" v hv
  · refine hfa.imp fun a b hab => ?_
    exact ⟨fun v hv => themeDataset_preserves hab "backgroundColor" v hv,
      fun v hv => themeDataset_preserves hab "borderColor" v hv,
      fun v hv => themeDataset_preserves hab "borderWidth" v hv⟩

/-- C5: theming a valid document is non-destructive: charts stay in order
(`List.Forall₂` pairs chart `i` with themed chart `i`), each chart keeps any
`options.plugins.title` and `options.plugins.legend` value it already had,
and its datasets stay in order, each keeping any `backgroundColor`,
`borderColor` and `borderWidth` value it already had. -/
theorem claim5_theme_nondestructive (D R : JSON)
    (hvalid : validate_config D = (true, ""))
    (hA : apply_visualization_rules D = .ok R) :
    ∃ cs cs', lookupJ D "charts" = some (.arr cs) ∧
      lookupJ R "charts" = some (.arr cs') ∧
      List.Forall₂ (fun c c' =>
        (∀ v, pluginsPathOf c "title" = some v →
          pluginsPathOf c' "title" = some v) ∧
        (∀ v, pluginsPathOf c "legend" = some v →
          pluginsPathOf c' "legend" = some v) ∧
        List.Forall₂ (fun ds ds' =>
          (∀ v, lookupJ ds "backgroundColor" = some v →
            lookupJ ds' "backgroundColor" = some v) ∧
          (∀ v, lookupJ ds "borderColor" = some v →
            lookupJ ds' "borderColor" = some v) ∧
          (∀ v, lookupJ ds "borderWidth" = some v →
            lookupJ ds' "borderWidth" = some v))
          (datasetsOf c) (datasetsOf c')) cs cs' := by
  have hbody : ∃ r, validateConfigBody D = .ok r ∧ r.1 = true := by
    rw [validate_config] at hvalid
    cases hb : validateConfigBody D with
    | ok r =>
        refine ⟨r, rfl, ?_⟩
        simp only [hb] at hvalid
        rw [hvalid]
    | error e =>
        simp only [hb] at hvalid
        simp at hvalid
  obtain ⟨r, hb, hr⟩ := hbody
  obtain ⟨hschema, -⟩ := validateConfigBody_ok_dest hb hr
  obtain ⟨fs, hD, cs, hck, -, -, -⟩ := schemaOk_dest hschema
  subst hD
  have hch : ¬ (lookupField fs "charts").isNone = true := by
    rw [hck]
    simp
  rw [apply_visualization_rules, if_neg hch, hck] at hA
  simp only [Option.getD_some, pyIter] at hA
  cases hmm : mapME themeChart cs with
  | error e =>
      simp only [hmm] at hA
      cases hA
  | ok cs2 =>
      simp only [hmm] at hA
      injection hA with hA2
      subst hA2
      refine ⟨cs, cs2, ?_, ?_, ?_⟩
      · simp only [lookupJ]
        exact hck
      · simp only [lookupJ, lookupField_setField_self]
      · exact (mapME_forall2 hmm).imp fun a b hab => themeChart_pair hab

theorem claim5_theme_nondestructive_witness :
    validate_config docThemed = (true, "") ∧
    apply_visualization_rules docThemed = .ok docThemed ∧
    ∃ cs cs', lookupJ docThemed "charts" = some (.arr cs) ∧
      lookupJ docThemed "charts" = some (.arr cs') ∧
      List.Forall₂ (fun c c' =>
        (∀ v, pluginsPathOf c "title" = some v →
          pluginsPathOf c' "title" = some v) ∧
        (∀ v, pluginsPathOf c "legend" = some v →
          pluginsPathOf c' "legend" = some v) ∧
        List.Forall₂ (fun ds ds' =>
          (∀ v, lookupJ ds "backgroundColor" = some v →
            lookupJ ds' "backgroundColor" = some v) ∧
          (∀ v, lookupJ ds "borderColor" = some v →
            lookupJ ds' "borderColor" = some v) ∧
          (∀ v, lookupJ ds "borderWidth" = some v →
            lookupJ ds' "borderWidth" = some v))
          (datasetsOf c) (datasetsOf c')) cs cs' :=
  ⟨by decide, by decide,
    claim5_theme_nondestructive docThemed docThemed (by decide) (by decide)⟩

theorem exceptOk_exists {α : Type} {x : Except String α} (h : exceptOk x = true) :
    ∃ a, x = .ok a := by
  cases x with
  | ok a => exact ⟨a, rfl⟩
  | error e => simp [exceptOk] at h

theorem filterMapE_ok_of_all (f : JSON → Except String (Option JSON))
    (l : List JSON) (h : ∀ a ∈ l, ∃ o, f a = .ok o) :
    ∃ bs, filterMapE f l = .ok bs := by
  induction l with
  | nil => exact ⟨[], rfl⟩
  | cons a as ih =>
      obtain ⟨o, ho⟩ := h a (List.mem_cons_self a as)
      obtain ⟨bs, hbs⟩ := ih fun x hx => h x (List.mem_cons_of_mem a hx)
      cases o with
      | none => exact ⟨bs, by simp only [filterMapE, ho, hbs]⟩
      | some b => exact ⟨b :: bs, by simp only [filterMapE, ho, hbs]⟩

theorem fixDataset_ok {dfs : List (String × JSON)} {lv : JSON}
    (hlv : lookupField dfs "labels" = some lv) (hsz : sizedOk lv = true)
    (ds : JSON) : exceptOk (fixDataset (.obj dfs) ds) = true := by
  cases ds with
  | null => rfl
  | bool b => rfl
  | num q => rfl
  | str s => rfl
  | arr l => rfl
  | obj fs =>
      cases hld : lookupField (ensureLabel fs) "data" with
      | none => simp only [fixDataset, hld, exceptOk]
      | some w =>
          cases w with
          | null => simp only [fixDataset, hld, exceptOk]
          | bool bb => simp only [fixDataset, hld, exceptOk]
          | num qq => simp only [fixDataset, hld, exceptOk]
          | str ss => simp only [fixDataset, hld, exceptOk]
          | obj ofs => simp only [fixDataset, hld, exceptOk]
          | arr xs =>
              cases hm : mapME coerceElem xs with
              | error e => simp only [fixDataset, hld, hm, exceptOk]
              | ok ys =>
                  have hlab : pyDictGet (.obj dfs) "labels" (.arr []) = .ok lv := by
                    simp only [pyDictGet, hlv]
                  cases lv with
                  | arr ll => simp only [fixDataset, hld, hm, hlab, pyLen, exceptOk]
                  | str ls => simp only [fixDataset, hld, hm, hlab, pyLen, exceptOk]
                  | obj lfs => simp only [fixDataset, hld, hm, hlab, pyLen, exceptOk]
                  | null => exact absurd hsz (by decide)
                  | bool lb => simp [sizedOk] at hsz
                  | num lq => simp [sizedOk] at hsz

theorem fixChartFinish_ok {fs1 : List (String × JSON)} (data2 : JSON)
    (ht : (lookupField fs1 "title").isSome = true) :
    exceptOk (fixChartFinish fs1 data2) = true := by
  obtain ⟨tv, htv⟩ := Option.isSome_iff_exists.mp ht
  simp only [fixChartFinish]
  by_cases hopt : (lookupField (setField fs1 "data" data2) "options").isSome = true
  · simp only [if_pos hopt, exceptOk]
  · rw [if_neg hopt]
    have h2 : lookupField (setField fs1 "data" data2) "title" = some tv := by
      rw [lookupField_setField_ne _ _ _ _
        (by decide : ("title" : String) ≠ "data")]
      exact htv
    simp only [pyGetItemStr, h2, exceptOk]

theorem chartFixSafe_sound {c : JSON} (h : chartFixSafe c = true) :
    exceptOk (fixChart c) = true := by
  cases c with
  | null => rfl
  | bool b => rfl
  | num q => rfl
  | str s => rfl
  | arr l => rfl
  | obj fs =>
      by_cases hg : ((lookupField fs "type").isNone ||
          (lookupField fs "data").isNone) = true
      · simp only [fixChart, if_pos hg, exceptOk]
      · have h' := h
        simp only [chartFixSafe, if_neg hg, Bool.and_eq_true] at h'
        obtain ⟨htl, hdata⟩ := h'
        cases hld : lookupField fs "data" with
        | none =>
            refine absurd ?_ hg
            rw [Bool.or_eq_true]
            refine Or.inr ?_
            rw [hld]
            rfl
        | some dv =>
        cases dv with
        | null =>
            simp only [hld] at hdata
            exact absurd hdata (by decide)
        | bool bb =>
            simp only [hld] at hdata
            exact absurd hdata (by decide)
        | num qq =>
            simp only [hld] at hdata
            exact absurd hdata (by decide)
        | str ss =>
            simp only [hld] at hdata
            exact absurd hdata (by decide)
        | arr ll =>
            simp only [hld] at hdata
            exact absurd hdata (by decide)
        | obj dfs =>
        have hens : ∃ fs1, ensureTitle fs = .ok fs1 ∧
            lookupField fs1 "data" = lookupField fs "data" ∧
            (lookupField fs1 "title").isSome = true := by
          by_cases htp : (lookupField fs "title").isSome = true
          · refine ⟨fs, ?_, rfl, htp⟩
            rw [ensureTitle, if_pos htp]
          · rw [Bool.or_eq_true] at htl
            cases htl with
            | inl h1 => exact absurd h1 htp
            | inr h2 =>
                cases hty : lookupField fs "type" with
                | none =>
                    simp only [hty] at h2
                    exact absurd h2 (by decide)
                | some tv =>
                    cases tv with
                    | str ts =>
                        refine ⟨setField fs "title" (.str (String.mk
                          (titleCaseChars ts.toList false) ++ " Chart")),
                          ?_, ?_, ?_⟩
                        · rw [ensureTitle, if_neg htp]
                          simp only [pyGetItemStr, hty, pyTitleMethod]
                        · rw [lookupField_setField_ne _ _ _ _
                            (by decide : ("data" : String) ≠ "title")]
                        · rw [lookupField_setField_self]
                          rfl
                    | null =>
                        simp only [hty] at h2
                        exact absurd h2 (by decide)
                    | bool tb =>
                        simp only [hty] at h2
                        exact absurd h2 (by decide)
                    | num tq =>
                        simp only [hty] at h2
                        exact absurd h2 (by decide)
                    | arr tl =>
                        simp only [hty] at h2
                        exact absurd h2 (by decide)
                    | obj tfs =>
                        simp only [hty] at h2
                        exact absurd h2 (by decide)
        obtain ⟨fs1, he1, hdata1, htl1⟩ := hens
        simp only [fixChart, if_neg hg, he1]
        have hdg : pyDictGet (.obj fs1) "data" (.obj []) = .ok (.obj dfs) := by
          simp only [pyDictGet, hdata1, hld]
        simp only [hdg]
        cases hlb : lookupField dfs "labels" with
        | none => simp only [pyContainsStr, hlb, Option.isSome_none, exceptOk]
        | some lv =>
            simp only [pyContainsStr, hlb, Option.isSome_some]
            cases hdss : lookupField dfs "datasets" with
            | none => simp only [hdss, Option.isSome_none, exceptOk]
            | some dsv =>
                simp only [hdss, Option.isSome_some]
                have hdg2 : pyDictGet (.obj dfs) "datasets" (.arr []) = .ok dsv := by
                  simp only [pyDictGet, hdss]
                simp only [hdg2]
                simp only [hld, hlb, hdss, Bool.and_eq_true] at hdata
                obtain ⟨hszlv, hszdsv⟩ := hdata
                cases dsv with
                | null => exact absurd hszdsv (by decide)
                | bool db => simp [sizedOk] at hszdsv
                | num dq => simp [sizedOk] at hszdsv
                | arr dl =>
                    obtain ⟨fixed, hfm⟩ := filterMapE_ok_of_all (fixDataset (.obj dfs))
                      dl (fun a _ => exceptOk_exists (fixDataset_ok hlb hszlv a))
                    simp only [pyIter, hfm]
                    by_cases hemp : fixed.isEmpty = true
                    · simp only [if_pos hemp, exceptOk]
                    · rw [if_neg hemp]
                      simp only [pySetItemStr]
                      exact fixChartFinish_ok _ htl1
                | str dss =>
                    obtain ⟨fixed, hfm⟩ := filterMapE_ok_of_all (fixDataset (.obj dfs))
                      (dss.toList.map fun ch => JSON.str (String.singleton ch))
                      (fun a _ => exceptOk_exists (fixDataset_ok hlb hszlv a))
                    simp only [pyIter, hfm]
                    by_cases hemp : fixed.isEmpty = true
                    · simp only [if_pos hemp, exceptOk]
                    · rw [if_neg hemp]
                      simp only [pySetItemStr]
                      exact fixChartFinish_ok _ htl1
                | obj dofs =>
                    obtain ⟨fixed, hfm⟩ := filterMapE_ok_of_all (fixDataset (.obj dfs))
                      (dofs.map fun p => JSON.str p.1)
                      (fun a _ => exceptOk_exists (fixDataset_ok hlb hszlv a))
                    simp only [pyIter, hfm]
                    by_cases hemp : fixed.isEmpty = true
                    · simp only [if_pos hemp, exceptOk]
                    · rw [if_neg hemp]
                      simp only [pySetItemStr]
                      exact fixChartFinish_ok _ htl1

/-- C3 (amended): `fix_common_issues` returns normally — with the
surviving repaired chart list stored under `charts` when the input is a
dict — for every input satisfying `fixSafe`: the `charts` value is absent
or iterable and every yielded chart entry is well-typed (string `type`
when `title` is absent, dict `data`, iterable `datasets`, sized `labels`).
On other inputs it can raise, as `claim3_repair_raises_cex` shows for the
original claim's own example shape. -/
theorem claim3_repair_safe_inputs (D : JSON) (h : fixSafe D = true) :
    ∃ R, fix_common_issues D = .ok R ∧
      ∀ fs, D = .obj fs → ∃ cs, lookupJ R "charts" = some (.arr cs) := by
  cases D with
  | null => exact ⟨.null, rfl, fun fs hfs => by cases hfs⟩
  | bool b => exact ⟨.bool b, rfl, fun fs hfs => by cases hfs⟩
  | num q => exact ⟨.num q, rfl, fun fs hfs => by cases hfs⟩
  | str s => exact ⟨.str s, rfl, fun fs hfs => by cases hfs⟩
  | arr l => exact ⟨.arr l, rfl, fun fs hfs => by cases hfs⟩
  | obj fs =>
      simp only [fixSafe] at h
      cases hck : lookupField fs "charts" with
      | none =>
          refine ⟨.obj (setField fs "charts" (.arr [])), ?_, ?_⟩
          · simp only [fix_common_issues, hck, Option.getD_none, pyIter, filterMapE]
          · intro fs0 hfs0
            injection hfs0 with hfs1
            subst hfs1
            exact ⟨[], by simp only [lookupJ, lookupField_setField_self]⟩
      | some cv =>
          cases cv with
          | null =>
              simp only [hck] at h
              exact absurd h (by decide)
          | bool bb =>
              simp only [hck] at h
              exact absurd h (by decide)
          | num qq =>
              simp only [hck] at h
              exact absurd h (by decide)
          | arr cs =>
              simp only [hck] at h
              obtain ⟨fixed, hfm⟩ := filterMapE_ok_of_all fixChart cs
                (fun a ha => exceptOk_exists
                  (chartFixSafe_sound (List.all_eq_true.mp h a ha)))
              refine ⟨.obj (setField fs "charts" (.arr fixed)), ?_, ?_⟩
              · simp only [fix_common_issues, hck, Option.getD_some, pyIter, hfm]
              · intro fs0 hfs0
                injection hfs0 with hfs1
                subst hfs1
                exact ⟨fixed, by simp only [lookupJ, lookupField_setField_self]⟩
          | str ss =>
              obtain ⟨fixed, hfm⟩ := filterMapE_ok_of_all fixChart
                (ss.toList.map fun ch => JSON.str (String.singleton ch))
                (fun a ha => by
                  obtain ⟨ch, -, hch⟩ := List.mem_map.mp ha
                  refine ⟨none, ?_⟩
                  rw [← hch]
                  rfl)
              refine ⟨.obj (setField fs "charts" (.arr fixed)), ?_, ?_⟩
              · simp only [fix_common_issues, hck, Option.getD_some, pyIter, hfm]
              · intro fs0 hfs0
                injection hfs0 with hfs1
                subst hfs1
                exact ⟨fixed, by simp only [lookupJ, lookupField_setField_self]⟩
          | obj cfs =>
              obtain ⟨fixed, hfm⟩ := filterMapE_ok_of_all fixChart
                (cfs.map fun p => JSON.str p.1)
                (fun a ha => by
                  obtain ⟨p, -, hp⟩ := List.mem_map.mp ha
                  refine ⟨none, ?_⟩
                  rw [← hp]
                  rfl)
              refine ⟨.obj (setField fs "charts" (.arr fixed)), ?_, ?_⟩
              · simp only [fix_common_issues, hck, Option.getD_some, pyIter, hfm]
              · intro fs0 hfs0
                injection hfs0 with hfs1
                subst hfs1
                exact ⟨fixed, by simp only [lookupJ, lookupField_setField_self]⟩

theorem claim3_repair_safe_inputs_witness :
    fixSafe docB = true ∧
    ∃ R, fix_common_issues docB = .ok R ∧
      ∀ fs, docB = .obj fs → ∃ cs, lookupJ R "charts" = some (.arr cs) :=
  ⟨by decide, claim3_repair_safe_inputs docB (by decide)⟩

end Visualizer
